import Mathlib

/-!
Shallow embedding of the SentinelMarket risk-scoring engine
(src/SentinelMarket/src/detectors and src/SentinelMarket/src/ml).

Modelling conventions:
* Python/numpy floats are modelled as exact rationals (ℚ).
* A pandas cell that may be NaN is modelled as `Option ℚ` (`none` = NaN).
  Rolling aggregations follow pandas semantics with the default
  `min_periods = window`: a window yields a value only when it holds
  `window` non-NaN observations.
* Python `int(x)` truncates toward zero; it is modelled by `pyInt`.
* Python float `sqrt` is irrational in general; `stdQ` uses `Rat.sqrt`
  (exact on perfect squares, and at every input exercised by the
  theorems in this file: all standard deviations that matter below are
  either 0, NaN, or never inspected).
* External sklearn objects (the fitted scaler and the isolation-forest
  ensemble) are modelled as opaque function fields of the detector
  structure, supplied by the environment; their numeric behaviour is
  universally quantified in the theorems that touch them.
-/

/-- Python `int()` applied to a float: truncation toward zero. -/
def pyInt (q : ℚ) : ℤ := if 0 ≤ q then ⌊q⌋ else ⌈q⌉

/-- Python `round(x, 2)` used in detail dictionaries (value-level only;
no claim depends on the tie-breaking convention). -/
def round2 (q : ℚ) : ℚ := (round (q * 100) : ℤ) / 100

/-- `min a (max b c)`-style clamp used by `predict_single`. -/
def clamp01to100 (q : ℚ) : ℚ := max 0 (min 100 q)

/-- A trading date.  Calendar arithmetic (pandas `.dt`) is external, so a
date carries its serial ordinal together with the attributes the code
reads off it. -/
structure TradeDate where
  serial : ℕ
  dayofweek : ℕ
  day : ℕ
deriving DecidableEq, Repr

/-- One row of the OHLCV price series (a row of the pandas DataFrame
with columns Date, Open, High, Low, Close, Volume). -/
structure Row where
  Date : TradeDate
  Open : ℚ
  High : ℚ
  Low : ℚ
  Close : ℚ
  Volume : ℚ
deriving DecidableEq, Repr

/-- The price series: the DataFrame, ordered as given by the caller. -/
abbrev Series := List Row

/-- A pandas float column: cells are `none` where the value is NaN. -/
abbrev Col := List (Option ℚ)

namespace Col

/-- Lift a NaN-free column. -/
def lift (xs : List ℚ) : Col := xs.map some

/-- Elementwise unary operation (NaN propagates). -/
def map1 (f : ℚ → ℚ) (xs : Col) : Col := xs.map (Option.map f)

/-- Elementwise binary operation on two aligned columns (NaN propagates). -/
def map2 (f : ℚ → ℚ → ℚ) (xs ys : Col) : Col :=
  List.zipWith (fun a b =>
    match a, b with
    | some u, some v => some (f u v)
    | _, _ => none) xs ys

/-- pandas `Series.pct_change()`: NaN in the first cell, then the
relative change.  (Series prices are nonzero in every valid input; ℚ
division by zero would yield 0 where a float would give ±inf.) -/
def pctChange (xs : List ℚ) : Col :=
  match xs with
  | [] => []
  | _ :: tl => none :: List.zipWith (fun prev cur => some ((cur - prev) / prev)) xs tl

/-- pandas `Series.diff()` on a possibly-NaN column. -/
def diffC (xs : Col) : Col :=
  match xs with
  | [] => []
  | _ :: tl => none :: List.zipWith (fun prev cur =>
      match prev, cur with
      | some a, some b => some (b - a)
      | _, _ => none) xs tl

/-- pandas `Series.diff()` on a NaN-free column. -/
def diffQ (xs : List ℚ) : Col := diffC (lift xs)

/-- pandas `Series.shift(1)`. -/
def shiftPos (xs : Col) : Col :=
  match xs with
  | [] => []
  | _ => none :: xs.dropLast

/-- pandas `Series.shift(-1)`. -/
def shiftNeg (xs : Col) : Col :=
  match xs with
  | [] => []
  | _ :: tl => tl ++ [none]

/-- Mean of a window (pandas rolling mean aggregate). -/
def meanQ (l : List ℚ) : ℚ := l.sum / l.length

/-- Sample variance of a window (pandas `std`, `ddof = 1`). -/
def varQ (l : List ℚ) : ℚ :=
  ((l.map (fun x => (x - meanQ l) ^ 2)).sum) / ((l.length - 1 : ℕ) : ℚ)

/-- Sample standard deviation; `Rat.sqrt` stands in for float sqrt
(see the file header). -/
def stdQ (l : List ℚ) : ℚ := Rat.sqrt (varQ l)

/-- pandas `Series.rolling(window = w).agg(f)` with the default
`min_periods = w`: a cell holds a value only when its trailing window
holds `w` non-NaN observations. -/
def rollingAgg (w : ℕ) (f : List ℚ → Option ℚ) (xs : Col) : Col :=
  (List.range xs.length).map (fun i =>
    if i + 1 < w then none
    else
      let win := (xs.drop (i + 1 - w)).take w
      if win.all Option.isSome then f win.reduceOption else none)

def rollingMean (w : ℕ) (xs : Col) : Col := rollingAgg w (fun l => some (meanQ l)) xs

def rollingStd (w : ℕ) (xs : Col) : Col := rollingAgg w (fun l => some (stdQ l)) xs

def rollingSum (w : ℕ) (xs : Col) : Col := rollingAgg w (fun l => some (l.sum)) xs

/-- Pearson correlation of two windows; NaN when a side is constant. -/
def corrQ (a b : List ℚ) : Option ℚ :=
  let n := a.length
  let ma := meanQ a
  let mb := meanQ b
  let cov := ((List.zipWith (fun x y => (x - ma) * (y - mb)) a b).sum) / ((n - 1 : ℕ) : ℚ)
  let denom := stdQ a * stdQ b
  if denom = 0 then none else some (cov / denom)

/-- pandas `a.rolling(w).corr(b)`: defined where the trailing window
holds `w` valid pairs. -/
def rollingCorr (w : ℕ) (xs ys : Col) : Col :=
  (List.range xs.length).map (fun i =>
    if i + 1 < w then none
    else
      let wa := (xs.drop (i + 1 - w)).take w
      let wb := (ys.drop (i + 1 - w)).take w
      if wa.all Option.isSome && wb.all Option.isSome then
        corrQ wa.reduceOption wb.reduceOption
      else none)

/-- `series.iloc[-1]` on a column. -/
def last (xs : Col) : Option ℚ := (xs.getLast?).join

end Col

/-- `df['Close']` etc. -/
def Series.closes (s : Series) : List ℚ := s.map Row.Close
def Series.opens (s : Series) : List ℚ := s.map Row.Open
def Series.highs (s : Series) : List ℚ := s.map Row.High
def Series.lows (s : Series) : List ℚ := s.map Row.Low
def Series.volumes (s : Series) : List ℚ := s.map Row.Volume

/-- `list.iloc[idx]` for negative `idx` on a NaN-free column
(`iloc[-k]` is the element at position `len - k`). -/
def ilocNeg (xs : List ℚ) (k : ℕ) : ℚ := xs.getD (xs.length - k) 0

/-- Result dictionary shared by the two statistical detectors:
`{is_suspicious, risk_score, message, details}`. -/
structure DetectionResult (δ : Type) where
  is_suspicious : Bool
  risk_score : ℤ
  message : String
  details : Option δ
deriving Repr

namespace VolumeSpikeDetector

/-- `VolumeSpikeDetector(window_days, spike_threshold)`. -/
structure Config where
  window_days : ℕ := 30
  spike_threshold : ℚ := 2
deriving Repr

/-- The `details` dictionary of a successful volume detection. -/
structure Details where
  current_volume : ℤ
  average_volume : ℤ
  volume_ratio : ℚ
  price_change_percent : ℚ
  threshold_used : ℚ
deriving Repr

/-- `VolumeSpikeDetector._calculate_risk_score`: the step mapping from
the volume ratio to a 0-100 risk score. -/
def _calculate_risk_score (volume_ratio : ℚ) : ℤ :=
  if volume_ratio ≥ 10 then 100
  else if volume_ratio ≥ 5 then 90
  else if volume_ratio ≥ 4 then 80
  else if volume_ratio ≥ 3 then 70
  else if volume_ratio ≥ 5/2 then 60
  else if volume_ratio ≥ 2 then 50
  else if volume_ratio ≥ 3/2 then 30
  else 0

/-- `VolumeSpikeDetector._calculate_price_change`: 1-day close-to-close
percent change (context only, not used in scoring). -/
def _calculate_price_change (s : Series) : ℚ :=
  if s.length < 2 then 0
  else
    let current_price := ilocNeg s.closes 1
    let previous_price := ilocNeg s.closes 2
    if previous_price = 0 then 0
    else ((current_price - previous_price) / previous_price) * 100

/-- `VolumeSpikeDetector._generate_message` (float formatting replaced
by exact rational rendering; no claim reads these strings). -/
def _generate_message (volume_ratio : ℚ) (risk_score : ℤ) : String :=
  if risk_score ≥ 80 then
    "EXTREME VOLUME SPIKE: " ++ toString volume_ratio ++ "x normal volume detected. High manipulation risk!"
  else if risk_score ≥ 60 then
    "HIGH VOLUME SPIKE: " ++ toString volume_ratio ++ "x normal volume detected. Suspicious activity."
  else if risk_score ≥ 40 then
    "MODERATE VOLUME SPIKE: " ++ toString volume_ratio ++ "x normal volume detected. Monitor closely."
  else if risk_score ≥ 20 then
    "SLIGHT VOLUME INCREASE: " ++ toString volume_ratio ++ "x normal volume. May be normal market activity."
  else
    "NORMAL VOLUME: " ++ toString volume_ratio ++ "x average. No anomaly detected."

/-- `VolumeSpikeDetector.detect`. -/
def detect (cfg : Config) (s : Series) : DetectionResult Details :=
  if s.length < cfg.window_days then
    { is_suspicious := false, risk_score := 0,
      message := "Insufficient data (need at least " ++ toString cfg.window_days ++ " days)",
      details := none }
  else
    let avg_volume := Col.rollingMean cfg.window_days (Col.lift s.volumes)
    let current_volume := ilocNeg s.volumes 1
    match Col.last avg_volume with
    | none =>
      { is_suspicious := false, risk_score := 0, message := "Invalid volume data", details := none }
    | some avg_volume_value =>
      if avg_volume_value = 0 then
        { is_suspicious := false, risk_score := 0, message := "Invalid volume data", details := none }
      else
        let volume_ratio := current_volume / avg_volume_value
        let risk_score := _calculate_risk_score volume_ratio
        let is_suspicious := volume_ratio ≥ cfg.spike_threshold
        let price_change := _calculate_price_change s
        { is_suspicious := is_suspicious, risk_score := risk_score,
          message := _generate_message volume_ratio risk_score,
          details := some
            { current_volume := pyInt current_volume,
              average_volume := pyInt avg_volume_value,
              volume_ratio := round2 volume_ratio,
              price_change_percent := round2 price_change,
              threshold_used := cfg.spike_threshold } }

end VolumeSpikeDetector

example :
    VolumeSpikeDetector._calculate_risk_score 12 = 100 ∧
    VolumeSpikeDetector._calculate_risk_score (11/5) = 50 ∧
    VolumeSpikeDetector._calculate_risk_score 1 = 0 := by
  refine ⟨?_, ?_, ?_⟩ <;> norm_num [VolumeSpikeDetector._calculate_risk_score]

namespace Col

@[simp] theorem length_lift (xs : List ℚ) : (lift xs).length = xs.length := by
  simp [lift]

@[simp] theorem length_map1 (f : ℚ → ℚ) (xs : Col) : (map1 f xs).length = xs.length := by
  simp [map1]

@[simp] theorem length_map2 (f : ℚ → ℚ → ℚ) (xs ys : Col) :
    (map2 f xs ys).length = min xs.length ys.length := by
  simp [map2]

@[simp] theorem length_pctChange (xs : List ℚ) : (pctChange xs).length = xs.length := by
  cases xs with
  | nil => simp [pctChange]
  | cons a tl => simp [pctChange]

@[simp] theorem length_diffC (xs : Col) : (diffC xs).length = xs.length := by
  cases xs with
  | nil => simp [diffC]
  | cons a tl => simp [diffC]

@[simp] theorem length_diffQ (xs : List ℚ) : (diffQ xs).length = xs.length := by
  simp [diffQ]

@[simp] theorem length_shiftPos (xs : Col) : (shiftPos xs).length = xs.length := by
  cases xs with
  | nil => rfl
  | cons a tl => simp [shiftPos, List.length_dropLast]

@[simp] theorem length_shiftNeg (xs : Col) : (shiftNeg xs).length = xs.length := by
  cases xs with
  | nil => rfl
  | cons a tl => simp [shiftNeg]

@[simp] theorem length_rollingAgg (w : ℕ) (f : List ℚ → Option ℚ) (xs : Col) :
    (rollingAgg w f xs).length = xs.length := by
  simp [rollingAgg]

@[simp] theorem length_rollingMean (w : ℕ) (xs : Col) :
    (rollingMean w xs).length = xs.length := by simp [rollingMean]

@[simp] theorem length_rollingStd (w : ℕ) (xs : Col) :
    (rollingStd w xs).length = xs.length := by simp [rollingStd]

@[simp] theorem length_rollingSum (w : ℕ) (xs : Col) :
    (rollingSum w xs).length = xs.length := by simp [rollingSum]

@[simp] theorem length_rollingCorr (w : ℕ) (xs ys : Col) :
    (rollingCorr w xs ys).length = xs.length := by
  simp [rollingCorr]

/-- `iloc[-1]` of a rolling aggregate only looks at the trailing window. -/
theorem last_rollingAgg (w : ℕ) (f : List ℚ → Option ℚ) (xs : Col) (h : xs ≠ []) :
    Col.last (rollingAgg w f xs) =
      if xs.length < w then none
      else
        let win := (xs.drop (xs.length - w)).take w
        if win.all Option.isSome then f win.reduceOption else none := by
  obtain ⟨m, hm⟩ : ∃ m, xs.length = m + 1 := by
    cases xs with
    | nil => exact absurd rfl h
    | cons a tl => exact ⟨tl.length, rfl⟩
  have hrange : List.range xs.length = List.range m ++ [m] := by
    rw [hm, List.range_succ]
  unfold rollingAgg Col.last
  rw [hrange, List.map_append, List.getLast?_append]
  simp only [List.map_cons, List.map_nil, List.getLast?_singleton, Option.or, Option.join]
  rw [show m + 1 - w = xs.length - w by omega]
  by_cases hw : xs.length < w
  · rw [if_pos (by omega), if_pos hw]
    rfl
  · rw [if_neg (by omega), if_neg hw]
    rfl

theorem last_rollingMean (w : ℕ) (xs : Col) (h : xs ≠ []) :
    Col.last (rollingMean w xs) =
      if xs.length < w then none
      else
        let win := (xs.drop (xs.length - w)).take w
        if win.all Option.isSome then some (meanQ win.reduceOption) else none := by
  unfold rollingMean; exact last_rollingAgg w _ xs h

theorem last_rollingStd (w : ℕ) (xs : Col) (h : xs ≠ []) :
    Col.last (rollingStd w xs) =
      if xs.length < w then none
      else
        let win := (xs.drop (xs.length - w)).take w
        if win.all Option.isSome then some (stdQ win.reduceOption) else none := by
  unfold rollingStd; exact last_rollingAgg w _ xs h

@[simp] theorem ratSqrt_zero : Rat.sqrt 0 = 0 := rfl

end Col

namespace PriceAnomalyDetector

/-- `PriceAnomalyDetector(window_days, z_score_threshold)`. -/
structure Config where
  window_days : ℕ := 30
  z_score_threshold : ℚ := 2
deriving Repr

/-- The `details` dictionary of a successful base price detection. -/
structure Details where
  z_score : ℚ
  current_return_percent : ℚ
  mean_return_percent : ℚ
  std_deviation : ℚ
  price_change_percent : ℚ
  intraday_volatility_percent : ℚ
  current_price : ℚ
  threshold_used : ℚ
deriving Repr

/-- Sub-indicator result: `{risk_score, details}` with a `status` string
and the indicator's numeric evidence. -/
structure IndicatorResult where
  risk_score : ℤ
  status : String
  value : Option ℚ
deriving Repr

/-- `PriceAnomalyDetector._calculate_risk_score`: base risk from the
z-score, boosted by the magnitude of the day's return. -/
def _calculate_risk_score (z_score : ℚ) (current_return : ℚ) : ℤ :=
  let abs_z := |z_score|
  let abs_return := |current_return|
  let base_score : ℤ :=
    if abs_z ≥ 4 then 100
    else if abs_z ≥ 3 then 85
    else if abs_z ≥ 5/2 then 70
    else if abs_z ≥ 2 then 55
    else if abs_z ≥ 3/2 then 35
    else 0
  let base_score :=
    if abs_return ≥ 20 then min (base_score + 20) 100
    else if abs_return ≥ 15 then min (base_score + 15) 100
    else if abs_return ≥ 10 then min (base_score + 10) 100
    else base_score
  base_score

/-- `PriceAnomalyDetector._generate_message`. -/
def _generate_message (z_score : ℚ) (current_return : ℚ) (risk_score : ℤ) : String :=
  let direction := if current_return > 0 then "increased" else "decreased"
  let abs_return := |current_return|
  if risk_score ≥ 80 then
    "EXTREME PRICE ANOMALY: Price " ++ direction ++ " " ++ toString abs_return ++
      "% (Z-score: " ++ toString z_score ++ "). High manipulation risk!"
  else if risk_score ≥ 60 then
    "HIGH PRICE ANOMALY: Price " ++ direction ++ " " ++ toString abs_return ++
      "% (Z-score: " ++ toString z_score ++ "). Suspicious movement."
  else if risk_score ≥ 40 then
    "MODERATE PRICE ANOMALY: Price " ++ direction ++ " " ++ toString abs_return ++
      "% (Z-score: " ++ toString z_score ++ "). Monitor closely."
  else
    "NORMAL PRICE MOVEMENT: Price " ++ direction ++ " " ++ toString abs_return ++
      "% (Z-score: " ++ toString z_score ++ ")."

/-- `PriceAnomalyDetector.detect`: z-score of the day's percent return
against its rolling mean/std. -/
def detect (cfg : Config) (s : Series) : DetectionResult Details :=
  if s.length < cfg.window_days then
    { is_suspicious := false, risk_score := 0,
      message := "Insufficient data (need at least " ++ toString cfg.window_days ++ " days)",
      details := none }
  else
    let returns := Col.map1 (· * 100) (Col.pctChange s.closes)
    let current_return := Col.last returns
    let current_mean := Col.last (Col.rollingMean cfg.window_days returns)
    let current_std := Col.last (Col.rollingStd cfg.window_days returns)
    match current_return, current_mean, current_std with
    | some r, cm, some sd =>
      if sd = 0 then
        { is_suspicious := false, risk_score := 0, message := "Invalid price data", details := none }
      else
        let m := cm.getD 0
        let z_score := (r - m) / sd
        let risk_score := _calculate_risk_score z_score r
        let is_suspicious := |z_score| ≥ cfg.z_score_threshold
        let price_change := ((ilocNeg s.closes 1 - ilocNeg s.closes 2) / ilocNeg s.closes 2) * 100
        let intraday_volatility := ((ilocNeg s.highs 1 - ilocNeg s.lows 1) / ilocNeg s.closes 1) * 100
        { is_suspicious := is_suspicious, risk_score := risk_score,
          message := _generate_message z_score r risk_score,
          details := some
            { z_score := round2 z_score,
              current_return_percent := round2 r,
              mean_return_percent := round2 m,
              std_deviation := round2 sd,
              price_change_percent := round2 price_change,
              intraday_volatility_percent := round2 intraday_volatility,
              current_price := round2 (ilocNeg s.closes 1),
              threshold_used := cfg.z_score_threshold } }
    | _, _, _ =>
      { is_suspicious := false, risk_score := 0, message := "Invalid price data", details := none }

/-- `PriceAnomalyDetector._check_bollinger_bands` (window 20). -/
def _check_bollinger_bands (s : Series) (window : ℕ := 20) : IndicatorResult :=
  if s.length < window then
    { risk_score := 0, status := "insufficient_data", value := none }
  else
    let closes := Col.lift s.closes
    let current_price := ilocNeg s.closes 1
    match Col.last (Col.rollingMean window closes), Col.last (Col.rollingStd window closes) with
    | some current_mean, some sd =>
      let current_upper := current_mean + 2 * sd
      let current_lower := current_mean - 2 * sd
      if current_price > current_upper then
        let deviation_percent := ((current_price - current_upper) / current_upper) * 100
        { risk_score := min (70 + pyInt (deviation_percent * 5)) 100,
          status := "overbought", value := some current_upper }
      else if current_price < current_lower then
        let deviation_percent := ((current_lower - current_price) / current_lower) * 100
        { risk_score := min (70 + pyInt (deviation_percent * 5)) 100,
          status := "oversold", value := some current_lower }
      else
        { risk_score := 0, status := "normal", value := some current_mean }
    | _, _ => { risk_score := 0, status := "invalid_data", value := none }

/-- The RSI value as pandas computes it, with float division semantics:
`avg_losses = 0` makes `rs` infinite (RSI 100) when gains are present and
NaN (`none`) when both sides are zero. -/
def rsiValue (g l : ℚ) : Option ℚ :=
  if l = 0 then
    if g = 0 then none else some 100
  else
    some (100 - 100 / (1 + g / l))

/-- `PriceAnomalyDetector._check_rsi` (window 14). -/
def _check_rsi (s : Series) (window : ℕ := 14) : IndicatorResult :=
  if s.length < window + 1 then
    { risk_score := 0, status := "insufficient_data", value := none }
  else
    let delta := Col.diffQ s.closes
    -- `delta.where(delta > 0, 0)`: a NaN cell fails the test and becomes 0
    let gains : List ℚ := delta.map (fun c =>
      match c with
      | some x => if x > 0 then x else 0
      | none => 0)
    let losses : List ℚ := delta.map (fun c =>
      match c with
      | some x => if x < 0 then -x else 0
      | none => 0)
    match Col.last (Col.rollingMean window (Col.lift gains)),
          Col.last (Col.rollingMean window (Col.lift losses)) with
    | some g, some l =>
      match rsiValue g l with
      | none => { risk_score := 0, status := "invalid_data", value := none }
      | some current_rsi =>
        if current_rsi ≥ 80 then
          { risk_score := 90, status := "extremely_overbought", value := some (round2 current_rsi) }
        else if current_rsi ≥ 70 then
          { risk_score := 70, status := "overbought", value := some (round2 current_rsi) }
        else if current_rsi ≤ 20 then
          { risk_score := 90, status := "extremely_oversold", value := some (round2 current_rsi) }
        else if current_rsi ≤ 30 then
          { risk_score := 70, status := "oversold", value := some (round2 current_rsi) }
        else
          { risk_score := 0, status := "neutral", value := some (round2 current_rsi) }
    | _, _ => { risk_score := 0, status := "invalid_data", value := none }

/-- `PriceAnomalyDetector._check_momentum` (window 10). -/
def _check_momentum (s : Series) (window : ℕ := 10) : IndicatorResult :=
  if s.length < window then
    { risk_score := 0, status := "insufficient_data", value := none }
  else
    let momentum := ilocNeg s.closes 1 - ilocNeg s.closes window
    let momentum_percent := (momentum / ilocNeg s.closes window) * 100
    let abs_momentum := |momentum_percent|
    if abs_momentum ≥ 30 then
      { risk_score := 100, status := "extreme_momentum", value := some (round2 momentum_percent) }
    else if abs_momentum ≥ 20 then
      { risk_score := 85, status := "very_high_momentum", value := some (round2 momentum_percent) }
    else if abs_momentum ≥ 15 then
      { risk_score := 70, status := "high_momentum", value := some (round2 momentum_percent) }
    else if abs_momentum ≥ 10 then
      { risk_score := 50, status := "moderate_momentum", value := some (round2 momentum_percent) }
    else
      { risk_score := 0, status := "normal_momentum", value := some (round2 momentum_percent) }

/-- `PriceAnomalyDetector._combine_risk_scores`: weighted average with
weights z-score 40%, Bollinger 25%, RSI 20%, momentum 15%, truncated. -/
def _combine_risk_scores (scores : List ℤ) : ℤ :=
  let weights : List ℚ := [40/100, 25/100, 20/100, 15/100]
  pyInt ((List.zipWith (fun sc w => (sc : ℚ) * w) scores weights).sum)

/-- The combined result of `detect_multiple_indicators`: the base
result with its score replaced plus the three indicator details. -/
structure MultiResult where
  is_suspicious : Bool
  risk_score : ℤ
  message : String
  details : Option Details
  bollinger_bands : IndicatorResult
  rsi : IndicatorResult
  momentum : IndicatorResult
deriving Repr

/-- `PriceAnomalyDetector.detect_multiple_indicators`. -/
def detect_multiple_indicators (cfg : Config) (s : Series) : MultiResult :=
  let base_result := detect cfg s
  let bollinger_result := _check_bollinger_bands s 20
  let rsi_result := _check_rsi s 14
  let momentum_result := _check_momentum s 10
  let combined_risk := _combine_risk_scores
    [base_result.risk_score, bollinger_result.risk_score,
     rsi_result.risk_score, momentum_result.risk_score]
  { is_suspicious := combined_risk ≥ 60,
    risk_score := combined_risk,
    message := base_result.message,
    details := base_result.details,
    bollinger_bands := bollinger_result,
    rsi := rsi_result,
    momentum := momentum_result }

end PriceAnomalyDetector

namespace Col

/-- `series.replace(0, np.nan)`. -/
def replaceZeroNaN (xs : Col) : Col :=
  xs.map (fun c => if c = some 0 then none else c)

/-- Boolean comparison of two columns; a NaN on either side compares
false (pandas semantics). -/
def gtB (xs ys : Col) : List Bool :=
  List.zipWith (fun a b =>
    match a, b with
    | some u, some v => decide (u > v)
    | _, _ => false) xs ys

def ltB (xs ys : Col) : List Bool :=
  List.zipWith (fun a b =>
    match a, b with
    | some u, some v => decide (u < v)
    | _, _ => false) xs ys

def geB (xs ys : Col) : List Bool :=
  List.zipWith (fun a b =>
    match a, b with
    | some u, some v => decide (u ≥ v)
    | _, _ => false) xs ys

def leB (xs ys : Col) : List Bool :=
  List.zipWith (fun a b =>
    match a, b with
    | some u, some v => decide (u ≤ v)
    | _, _ => false) xs ys

/-- `series > c` against a scalar. -/
def gtScalarB (xs : Col) (c : ℚ) : List Bool :=
  xs.map (fun a =>
    match a with
    | some u => decide (u > c)
    | none => false)

def ltScalarB (xs : Col) (c : ℚ) : List Bool :=
  xs.map (fun a =>
    match a with
    | some u => decide (u < c)
    | none => false)

def andB (xs ys : List Bool) : List Bool := List.zipWith (· && ·) xs ys

def orB (xs ys : List Bool) : List Bool := List.zipWith (· || ·) xs ys

/-- `.astype(int)` on a boolean series. -/
def boolToCol (bs : List Bool) : Col := bs.map (fun b => some (if b then (1 : ℚ) else 0))

/-- An integer series as a float column. -/
def natToCol (ns : List ℕ) : Col := List.map (fun (n : ℕ) => (some ((n : ℚ)) : Option ℚ)) ns

@[simp] theorem length_replaceZeroNaN (xs : Col) :
    (replaceZeroNaN xs).length = xs.length := by simp [replaceZeroNaN]

@[simp] theorem length_gtB (xs ys : Col) : (gtB xs ys).length = min xs.length ys.length := by
  simp [gtB]

@[simp] theorem length_ltB (xs ys : Col) : (ltB xs ys).length = min xs.length ys.length := by
  simp [ltB]

@[simp] theorem length_geB (xs ys : Col) : (geB xs ys).length = min xs.length ys.length := by
  simp [geB]

@[simp] theorem length_leB (xs ys : Col) : (leB xs ys).length = min xs.length ys.length := by
  simp [leB]

@[simp] theorem length_gtScalarB (xs : Col) (c : ℚ) : (gtScalarB xs c).length = xs.length := by
  simp [gtScalarB]

@[simp] theorem length_ltScalarB (xs : Col) (c : ℚ) : (ltScalarB xs c).length = xs.length := by
  simp [ltScalarB]

@[simp] theorem length_andB (xs ys : List Bool) : (andB xs ys).length = min xs.length ys.length := by
  simp [andB]

@[simp] theorem length_orB (xs ys : List Bool) : (orB xs ys).length = min xs.length ys.length := by
  simp [orB]

@[simp] theorem length_boolToCol (bs : List Bool) : (boolToCol bs).length = bs.length := by
  simp [boolToCol]

@[simp] theorem length_natToCol (ns : List ℕ) : (natToCol ns).length = ns.length := by
  unfold natToCol
  rw [List.length_map]

end Col

namespace FeatureEngineer

/-- The additive epsilon used throughout the feature engineer to avoid
division by zero (`1e-8`). -/
def eps : ℚ := 1 / 100000000

/-- A features dictionary: insertion-ordered string-keyed columns. -/
abbrev FeatureTable := List (String × Col)

/-- Assigning one key in a Python dict: replaces in place when present,
appends otherwise. -/
def updateDict (d : FeatureTable) (k : String) (v : Col) : FeatureTable :=
  if d.any (fun p => p.1 = k) then
    d.map (fun p => if p.1 = k then (k, v) else p)
  else d ++ [(k, v)]

/-- `features.update(family(data))`. -/
def mergeInto (d : FeatureTable) (kv : FeatureTable) : FeatureTable :=
  kv.foldl (fun acc p => updateDict acc p.1 p.2) d

/-- `pump-and-dump` run-length: `h.groupby((h != h.shift()).cumsum()).cumsum()`
on a 0/1 series, i.e. the cumulative sum within each run of equal values. -/
def runCumsum (xs : List ℕ) : List ℕ :=
  go none 0 xs
where
  go (prev : Option ℕ) (acc : ℕ) : List ℕ → List ℕ
    | [] => []
    | x :: rest =>
      let acc' := if prev = some x then acc + x else x
      acc' :: go (some x) acc' rest

theorem length_runCumsum_go (prev : Option ℕ) (acc : ℕ) (xs : List ℕ) :
    (runCumsum.go prev acc xs).length = xs.length := by
  induction xs generalizing prev acc with
  | nil => rfl
  | cons x rest ih => simp [runCumsum.go, ih]

@[simp] theorem length_runCumsum (xs : List ℕ) : (runCumsum xs).length = xs.length :=
  length_runCumsum_go none 0 xs

/-- `FeatureEngineer._volume_price_divergence`. -/
def _volume_price_divergence (w : ℕ) (data : Series) : FeatureTable :=
  let price_returns := Col.pctChange data.closes
  let volume_returns := Col.pctChange data.volumes
  let rolling_corr := Col.rollingCorr w (Col.lift data.volumes) price_returns
  let volume_ratio := Col.map2 (· / ·) (Col.lift data.volumes)
    (Col.rollingMean w (Col.lift data.volumes))
  let price_change_pct := Col.replaceZeroNaN (Col.map1 abs (Col.map1 (· * 100) price_returns))
  let volume_price_ratio := Col.map2 (· / ·) volume_ratio (Col.map1 (· + 1) price_change_pct)
  let volume_accel := Col.diffC volume_returns
  let price_accel := Col.diffC price_returns
  let volume_spike := Col.gtB (Col.lift data.volumes)
    (Col.map1 (· * 2) (Col.rollingMean w (Col.lift data.volumes)))
  let price_sustained := Col.gtB (Col.lift data.closes) (Col.shiftPos (Col.lift data.closes))
  let divergence_score := Col.map2 (· - ·) (Col.boolToCol volume_spike)
    (Col.boolToCol price_sustained)
  [("volume_price_correlation", rolling_corr),
   ("volume_price_ratio", volume_price_ratio),
   ("volume_acceleration", volume_accel),
   ("price_acceleration", price_accel),
   ("volume_price_accel_diff", Col.map2 (· - ·) volume_accel price_accel),
   ("volume_price_divergence", divergence_score)]

/-- `FeatureEngineer._price_acceleration`. -/
def _price_acceleration (w : ℕ) (data : Series) : FeatureTable :=
  let returns := Col.pctChange data.closes
  let price_acceleration := Col.diffC returns
  let price_accel_rate := Col.diffC price_acceleration
  let rolling_mean := Col.rollingMean w price_acceleration
  let rolling_std := Col.rollingStd w price_acceleration
  let sudden_accel := Col.map2 (· / ·) (Col.map2 (· - ·) price_acceleration rolling_mean)
    (Col.map1 (· + eps) rolling_std)
  let accel_reversal := Col.andB (Col.gtScalarB price_acceleration 0)
    (Col.ltScalarB (Col.shiftNeg price_acceleration) 0)
  [("price_acceleration", price_acceleration),
   ("price_acceleration_rate", price_accel_rate),
   ("price_accel_magnitude", Col.map1 abs price_acceleration),
   ("sudden_acceleration_zscore", sudden_accel),
   ("acceleration_reversal", Col.boolToCol accel_reversal)]

/-- `FeatureEngineer._intraday_patterns`. -/
def _intraday_patterns (w : ℕ) (data : Series) : FeatureTable :=
  let intraday_range : List ℚ := data.map (fun r => ((r.High - r.Low) / r.Close) * 100)
  let avg_intraday_range := Col.rollingMean w (Col.lift intraday_range)
  let intraday_range_ratio := Col.map2 (· / ·) (Col.lift intraday_range)
    (Col.map1 (· + eps) avg_intraday_range)
  let close_position : List ℚ := data.map (fun r => (r.Close - r.Low) / (r.High - r.Low + eps))
  let gap := Col.map1 (· * 100) (Col.map2 (fun o pc => (o - pc) / pc) (Col.lift data.opens)
    (Col.shiftPos (Col.lift data.closes)))
  let gap_filled := Col.orB
    (Col.andB (Col.gtScalarB gap 0)
      (Col.leB (Col.lift data.lows) (Col.shiftPos (Col.lift data.closes))))
    (Col.andB (Col.ltScalarB gap 0)
      (Col.geB (Col.lift data.highs) (Col.shiftPos (Col.lift data.closes))))
  let intraday_vol := Col.lift intraday_range
  let avg_intraday_vol := Col.rollingMean w intraday_vol
  [("intraday_range_pct", Col.lift intraday_range),
   ("intraday_range_ratio", intraday_range_ratio),
   ("close_position_in_range", Col.lift close_position),
   ("gap_pct", gap),
   ("gap_filled", Col.boolToCol gap_filled),
   ("intraday_volatility_ratio", Col.map2 (· / ·) intraday_vol
     (Col.map1 (· + eps) avg_intraday_vol))]

/-- `FeatureEngineer._multi_day_momentum` (its windows are the fixed
3/5-day spans of the source, not `window_days`). -/
def _multi_day_momentum (data : Series) : FeatureTable :=
  let returns := Col.pctChange data.closes
  let momentum_3d := Col.rollingSum 3 returns
  let momentum_5d := Col.rollingSum 5 returns
  let momentum_change := Col.diffC momentum_3d
  let momentum_reversal := Col.andB (Col.gtScalarB momentum_3d 0)
    (Col.ltScalarB (Col.shiftNeg momentum_3d) 0)
  let momentum_std := Col.rollingStd 5 returns
  let momentum_consistency := Col.map1 (fun x => 1 / (x + eps)) momentum_std
  let volume_avg := Col.rollingMean 5 (Col.lift data.volumes)
  let volume_ratio := Col.map2 (· / ·) (Col.lift data.volumes) (Col.map1 (· + eps) volume_avg)
  let momentum_volume_ratio := Col.map2 (· / ·) (Col.map1 abs momentum_3d)
    (Col.map1 (· + eps) volume_ratio)
  [("momentum_3d", momentum_3d),
   ("momentum_5d", momentum_5d),
   ("momentum_change", momentum_change),
   ("momentum_reversal", Col.boolToCol momentum_reversal),
   ("momentum_consistency", momentum_consistency),
   ("momentum_volume_ratio", momentum_volume_ratio)]

/-- `FeatureEngineer._liquidity_features`. -/
def _liquidity_features (w : ℕ) (data : Series) : FeatureTable :=
  let volume_price_ratio : List ℚ := data.map (fun r => r.Volume / (r.Close + eps))
  let avg_vp_ratio := Col.rollingMean w (Col.lift volume_price_ratio)
  let dollar_volume : List ℚ := data.map (fun r => r.Volume * r.Close)
  let avg_dollar_volume := Col.rollingMean w (Col.lift dollar_volume)
  let price_change := Col.map1 abs (Col.pctChange data.closes)
  let price_impact := Col.map2 (· / ·) price_change
    (Col.lift (data.volumes.map (· + eps)))
  let liquidity_score := Col.map1 (fun x => 1 / (x + eps)) price_impact
  [("volume_to_price_ratio", Col.lift volume_price_ratio),
   ("volume_price_ratio_vs_avg", Col.map2 (· / ·) (Col.lift volume_price_ratio)
     (Col.map1 (· + eps) avg_vp_ratio)),
   ("dollar_volume", Col.lift dollar_volume),
   ("dollar_volume_ratio", Col.map2 (· / ·) (Col.lift dollar_volume)
     (Col.map1 (· + eps) avg_dollar_volume)),
   ("price_impact", price_impact),
   ("liquidity_score", liquidity_score)]

/-- `FeatureEngineer._price_stability`. -/
def _price_stability (w : ℕ) (data : Series) : FeatureTable :=
  let returns := Col.pctChange data.closes
  let price_volatility := Col.rollingStd w returns
  let avg_volatility := Col.rollingMean (w * 2) price_volatility
  let volatility_ratio := Col.map2 (· / ·) price_volatility (Col.map1 (· + eps) avg_volatility)
  let direction_changes := Col.map1 abs (Col.diffC (Col.boolToCol (Col.gtScalarB returns 0)))
  let price_oscillation := Col.rollingSum 5 direction_changes
  let price_stability_score := Col.map1 (fun x => 1 / (x + eps)) price_volatility
  let hl_spread : List ℚ := data.map (fun r => (r.High - r.Low) / r.Close)
  let avg_hl_spread := Col.rollingMean w (Col.lift hl_spread)
  [("price_volatility", price_volatility),
   ("volatility_ratio", volatility_ratio),
   ("price_oscillation", price_oscillation),
   ("price_stability_score", price_stability_score),
   ("hl_spread", Col.lift hl_spread),
   ("hl_spread_ratio", Col.map2 (· / ·) (Col.lift hl_spread)
     (Col.map1 (· + eps) avg_hl_spread))]

/-- `FeatureEngineer._volume_distribution`. -/
def _volume_distribution (w : ℕ) (data : Series) : FeatureTable :=
  let volume_trend := Col.diffC (Col.rollingMean 5 (Col.lift data.volumes))
  let volume_std := Col.rollingStd w (Col.lift data.volumes)
  let volume_mean := Col.rollingMean w (Col.lift data.volumes)
  let volume_cv := Col.map2 (· / ·) volume_std (Col.map1 (· + eps) volume_mean)
  let volume_consistency := Col.map1 (fun x => 1 / (x + eps)) volume_cv
  let volume_ratio := Col.map2 (· / ·) (Col.lift data.volumes)
    (Col.rollingMean w (Col.lift data.volumes))
  let high_volume : List ℕ := (Col.gtScalarB volume_ratio 2).map (fun b => if b then 1 else 0)
  let volume_spike_duration := runCumsum high_volume
  let volume_mean_reversion := Col.map1 (fun x => |x - 1|) volume_ratio
  [("volume_trend", volume_trend),
   ("volume_consistency", volume_consistency),
   ("volume_spike_duration", Col.natToCol volume_spike_duration),
   ("volume_mean_reversion", volume_mean_reversion)]

/-- `FeatureEngineer._time_based_features`: calendar attributes read off
each row's date. -/
def _time_based_features (data : Series) : FeatureTable :=
  let day_of_week : List ℕ := data.map (fun r => r.Date.dayofweek)
  let day_of_month : List ℕ := data.map (fun r => r.Date.day)
  [("day_of_week", Col.natToCol day_of_week),
   ("is_weekend", Col.boolToCol (day_of_week.map (fun d => decide (d ≥ 5)))),
   ("day_of_month", Col.natToCol day_of_month),
   ("is_month_end", Col.boolToCol (day_of_month.map (fun d => decide (d ≥ 28)))),
   ("is_month_beginning", Col.boolToCol (day_of_month.map (fun d => decide (d ≤ 3))))]

/-- `FeatureEngineer._reversal_patterns`. -/
def _reversal_patterns (w : ℕ) (data : Series) : FeatureTable :=
  let returns := Col.pctChange data.closes
  let reversal := Col.andB (Col.gtScalarB returns (5/100))
    (Col.ltScalarB (Col.shiftNeg returns) (-(5/100)))
  let reversal_magnitude := Col.map2 (· + ·) (Col.map1 abs returns)
    (Col.map1 abs (Col.shiftNeg returns))
  let pump_dump := Col.andB (Col.gtScalarB returns (10/100))
    (Col.ltScalarB (Col.shiftNeg returns) (-(10/100)))
  let price_above_avg := Col.gtB (Col.lift data.closes)
    (Col.rollingMean w (Col.lift data.closes))
  let price_below_next := Col.ltB (Col.lift data.closes) (Col.shiftNeg (Col.lift data.closes))
  let reversal_score := Col.boolToCol (Col.andB price_above_avg price_below_next)
  [("reversal_pattern", Col.boolToCol reversal),
   ("reversal_magnitude", reversal_magnitude),
   ("pump_dump_pattern", Col.boolToCol pump_dump),
   ("price_reversal_score", reversal_score)]

/-- `data.sort_values('Date')` (dates of a valid series are already
strictly increasing; on such input this sort is the identity). -/
def insertByDate (r : Row) : Series → Series
  | [] => [r]
  | x :: xs => if r.Date.serial ≤ x.Date.serial then r :: x :: xs else x :: insertByDate r xs

def sortByDate : Series → Series
  | [] => []
  | x :: xs => insertByDate x (sortByDate xs)

@[simp] theorem length_insertByDate (r : Row) (s : Series) :
    (insertByDate r s).length = s.length + 1 := by
  induction s with
  | nil => rfl
  | cons x xs ih =>
    simp only [insertByDate]
    split
    · simp
    · simp [ih]

@[simp] theorem length_sortByDate (s : Series) : (sortByDate s).length = s.length := by
  induction s with
  | nil => rfl
  | cons x xs ih => simp [sortByDate, ih]

/-- Number of rows of the built feature DataFrame. -/
def rowCount (t : FeatureTable) : ℕ :=
  match t with
  | [] => 0
  | p :: _ => p.2.length

/-- `FeatureEngineer.extract_features`: empty below `window_days` rows,
otherwise the nine feature families merged into one insertion-ordered
dictionary, aligned to the row count of the input. -/
def extract_features (window_days : ℕ) (stock_data : Series) : FeatureTable :=
  if stock_data.length < window_days then []
  else
    let data := sortByDate stock_data
    let features := mergeInto (mergeInto (mergeInto (mergeInto (mergeInto (mergeInto
      (mergeInto (mergeInto (_volume_price_divergence window_days data)
        (_price_acceleration window_days data))
        (_intraday_patterns window_days data))
        (_multi_day_momentum data))
        (_liquidity_features window_days data))
        (_price_stability window_days data))
        (_volume_distribution window_days data))
        (_time_based_features data))
      (_reversal_patterns window_days data)
    if rowCount features ≠ data.length then
      features.map (fun p => (p.1, p.2.take data.length))
    else features

/-- The 47 feature names, in the dictionary order the source builds. -/
def featureNames : List String :=
  ["volume_price_correlation", "volume_price_ratio", "volume_acceleration",
   "price_acceleration", "volume_price_accel_diff", "volume_price_divergence",
   "price_acceleration_rate", "price_accel_magnitude", "sudden_acceleration_zscore",
   "acceleration_reversal",
   "intraday_range_pct", "intraday_range_ratio", "close_position_in_range",
   "gap_pct", "gap_filled", "intraday_volatility_ratio",
   "momentum_3d", "momentum_5d", "momentum_change", "momentum_reversal",
   "momentum_consistency", "momentum_volume_ratio",
   "volume_to_price_ratio", "volume_price_ratio_vs_avg", "dollar_volume",
   "dollar_volume_ratio", "price_impact", "liquidity_score",
   "price_volatility", "volatility_ratio", "price_oscillation",
   "price_stability_score", "hl_spread", "hl_spread_ratio",
   "volume_trend", "volume_consistency", "volume_spike_duration",
   "volume_mean_reversion",
   "day_of_week", "is_weekend", "day_of_month", "is_month_end", "is_month_beginning",
   "reversal_pattern", "reversal_magnitude", "pump_dump_pattern",
   "price_reversal_score"]

end FeatureEngineer

/-- One feature row handed to `predict_single` (a dict / pandas row;
cells may be NaN). -/
abbrev FeatureRow := List (String × Option ℚ)

namespace IsolationForest

/-- The external sklearn state (fitted StandardScaler and fitted
IsolationForest ensemble), modelled as opaque row-level functions
supplied by the environment. -/
structure MlEngine where
  transform : List ℚ → List ℚ
  score_samples : List ℚ → ℚ
  predictSign : List ℚ → ℤ

/-- `IsolationForestDetector.training_info`. -/
structure TrainingInfo where
  n_samples : ℕ
  n_features : ℕ
  n_anomalies_detected : ℕ
  n_normal_detected : ℕ
  anomaly_rate : ℚ
  contamination : ℚ
  n_estimators : ℕ
deriving Repr

/-- `IsolationForestDetector`: hyper-parameters, training state, the
fixed feature-column order and the fitted sklearn objects. -/
structure IsolationForestDetector where
  contamination : ℚ := 1/10
  n_estimators : ℕ := 100
  random_state : ℕ := 42
  feature_columns : Option (List String) := none
  is_trained : Bool := false
  engine : MlEngine
  training_info : Option TrainingInfo := none

/-- Row-major feature matrix extraction `data[feature_columns]` with
`fillna(0)`: for each row index, the named cells with NaN zero-filled. -/
def frameRows (t : FeatureEngineer.FeatureTable) (cols : List String) (nrows : ℕ) :
    List (List ℚ) :=
  (List.range nrows).map (fun i =>
    cols.map (fun c =>
      match t.find? (fun p => p.1 = c) with
      | some p => ((p.2.getD i none).getD 0)
      | none => 0))

/-- `IsolationForestDetector.train`: fixes the feature-column order
(auto-detected unless given), zero-fills missing values, fits the
scaler and the ensemble (the resulting fitted state `eng` is an input
here, since sklearn fitting is external), and records training
statistics.  Afterwards the model is in the Trained state. -/
def train (m : IsolationForestDetector) (training_data : FeatureEngineer.FeatureTable)
    (feature_columns : Option (List String)) (eng : MlEngine) :
    IsolationForestDetector × TrainingInfo :=
  let cols := feature_columns.getD
    ((training_data.map Prod.fst).filter (fun c => c ∉ ["ticker", "date", "Date"]))
  let nrows := FeatureEngineer.rowCount training_data
  let X := frameRows training_data cols nrows
  let X_scaled := X.map eng.transform
  let predictions := X_scaled.map eng.predictSign
  let n_anomalies := (predictions.filter (fun p => p = -1)).length
  let n_normal := (predictions.filter (fun p => p = 1)).length
  let info : TrainingInfo :=
    { n_samples := nrows, n_features := cols.length,
      n_anomalies_detected := n_anomalies, n_normal_detected := n_normal,
      anomaly_rate := (n_anomalies : ℚ) / (nrows : ℚ),
      contamination := m.contamination, n_estimators := m.n_estimators }
  ({ m with is_trained := true, feature_columns := some cols, engine := eng,
            training_info := some info }, info)

/-- One row of the batch `predict` output. -/
structure PredictRow where
  prediction : ℤ
  anomaly_score : ℚ
  risk_score : ℚ
  is_anomaly : Bool
deriving Repr

/-- `IsolationForestDetector.predict` (batch): raises before training,
otherwise scores every row and converts anomaly scores to risk by
batch min-max normalisation (inverted), defaulting to 50 when all
scores coincide. -/
def predict (m : IsolationForestDetector) (data : FeatureEngineer.FeatureTable) :
    Except String (List PredictRow) :=
  if ¬ m.is_trained then .error "Model not trained. Call train() first."
  else
    match m.feature_columns with
    | none => .error "Feature columns not set. Model may not be properly trained."
    | some cols =>
      if ¬ cols.all (fun c => data.any (fun p => p.1 = c)) then
        .error "KeyError: a required feature column is missing"
      else
        let nrows := FeatureEngineer.rowCount data
        let X := frameRows data cols nrows
        let X_scaled := X.map m.engine.transform
        let predictions := X_scaled.map m.engine.predictSign
        let anomaly_scores := X_scaled.map m.engine.score_samples
        let min_score := (anomaly_scores.min?).getD 0
        let max_score := (anomaly_scores.max?).getD 0
        .ok (List.zipWith (fun p a =>
          let risk : ℚ :=
            if max_score ≠ min_score then (1 - (a - min_score) / (max_score - min_score)) * 100
            else 50
          { prediction := p, anomaly_score := a,
            risk_score := max 0 (min 100 risk), is_anomaly := p = -1 })
          predictions anomaly_scores)

/-- The fixed piecewise-linear risk mapping of `predict_single` (before
the final clamp). -/
def riskFromAnomalyScore (anomaly_score : ℚ) : ℚ :=
  if anomaly_score < -(1/2) then 80 + (|anomaly_score| - 1/2) * 40
  else if anomaly_score < 0 then 60 + |anomaly_score| * 40
  else if anomaly_score < 1/2 then 30 + (1/2 - anomaly_score) * 60
  else 0 + (1 - anomaly_score) * 60

/-- `IsolationForestDetector.predict_single`: raises before training,
fills feature columns missing from the row with 0, reorders to the
stored column order, scores, and maps the anomaly score through the
fixed bands with a final clamp to [0, 100].  A NaN cell reaching the
sklearn scaler raises (sklearn rejects NaN input). -/
def predict_single (m : IsolationForestDetector) (features : FeatureRow) :
    Except String PredictRow :=
  if ¬ m.is_trained then .error "Model not trained. Call train() first."
  else
    match m.feature_columns with
    | none => .error "TypeError: argument of type NoneType is not iterable"
    | some cols =>
      let cells := cols.map (fun c =>
        match features.find? (fun p => p.1 = c) with
        | some p => p.2
        | none => some 0)
      if ¬ cells.all Option.isSome then .error "Input contains NaN."
      else
        let X_scaled := m.engine.transform cells.reduceOption
        let prediction := m.engine.predictSign X_scaled
        let anomaly_score := m.engine.score_samples X_scaled
        let risk_score := clamp01to100 (riskFromAnomalyScore anomaly_score)
        .ok { prediction := prediction, anomaly_score := anomaly_score,
              risk_score := risk_score, is_anomaly := prediction = -1 }

end IsolationForest

namespace RiskScorer

open IsolationForest

/-- `ml_details` attached to a successful ML prediction. -/
structure MlDetails where
  anomaly_score : ℚ
  is_anomaly : Bool
  prediction : ℤ
deriving Repr

/-- The dictionary `_get_ml_score` returns. -/
structure MlScoreResult where
  ml_score : ℚ
  ml_available : Bool
  ml_error : Option String
  ml_details : Option MlDetails
deriving Repr

/-- The combination weight vector. -/
structure Weights where
  volume : ℚ
  price : ℚ
  social : ℚ
  ml : ℚ
deriving Repr

/-- `ml_status` of a risk assessment. -/
structure MlStatus where
  enabled : Bool
  error : Option String
  score : ℚ
deriving Repr

/-- The dictionary `calculate_risk_score` returns.  The error-shaped
record of `batch_calculate_risk` carries no `ml_status` key, hence the
`Option`. -/
structure RiskAssessment where
  ticker : String
  risk_score : ℤ
  risk_level : String
  is_suspicious : Bool
  explanation : String
  red_flags : List String
  individual_scores : List (String × ℚ)
  ml_status : Option MlStatus
  recommendation : String
deriving Repr

end RiskScorer

/-- `RiskScorer`: constructed with a `VolumeSpikeDetector(30, 2.0)` and
a `PriceAnomalyDetector(30, 2.0)`.  The optionally attached feature
engineer + model pair is modelled by two `Except`-valued functions, so
that the theorems quantify over every exception behaviour of feature
extraction and single-day prediction (any Python exception in the
`try` block of `_get_ml_score` is an `error` outcome here).  The
attached real pipeline is `fun s => .ok (extract_features 30 s)`
composed with `predict_single` on a loaded model. -/
structure RiskScorer where
  ml_enabled : Bool
  ml_error : Option String
  extractFn : Series → Except String FeatureEngineer.FeatureTable
  predictFn : FeatureRow → Except String IsolationForest.PredictRow

namespace RiskScorer

open IsolationForest

/-- The volume detector configuration the scorer constructs. -/
def volumeCfg : VolumeSpikeDetector.Config := { window_days := 30, spike_threshold := 2 }

/-- The price detector configuration the scorer constructs. -/
def priceCfg : PriceAnomalyDetector.Config := { window_days := 30, z_score_threshold := 2 }

/-- The base weight dictionary fixed at construction: the ML weights
when the model loaded, the Phase-1 fallback weights otherwise. -/
def weights (rs : RiskScorer) : Weights :=
  if rs.ml_enabled then
    { volume := 30/100, price := 35/100, social := 10/100, ml := 25/100 }
  else
    { volume := 35/100, price := 40/100, social := 15/100, ml := 10/100 }

/-- The live redistribution of the ml weight when the model is
unavailable at scoring time. -/
def redistribute (w : Weights) : Weights :=
  { volume := w.volume + w.ml * (4/10),
    price := w.price + w.ml * (6/10),
    social := w.social,
    ml := 0 }

/-- `df.iloc[-1:]` of the feature table: the most recent feature row. -/
def latestRow (t : FeatureEngineer.FeatureTable) : FeatureRow :=
  t.map (fun p => (p.1, Col.last p.2))

/-- `RiskScorer._get_ml_score`: the guarded ML scoring step.  Every
exception inside the `try` block is absorbed into an error message. -/
def _get_ml_score (rs : RiskScorer) (stock_data : Series) (_ticker : String) : MlScoreResult :=
  if ¬ rs.ml_enabled then
    { ml_score := 0, ml_available := false,
      ml_error := some (rs.ml_error.getD "ML model not enabled"), ml_details := none }
  else
    match rs.extractFn stock_data with
    | .error e =>
      { ml_score := 0, ml_available := false,
        ml_error := some ("ML prediction error: " ++ e), ml_details := none }
    | .ok features_df =>
      if features_df.isEmpty then
        { ml_score := 0, ml_available := false,
          ml_error := some "Feature extraction returned empty DataFrame", ml_details := none }
      else
        match rs.predictFn (latestRow features_df) with
        | .error e =>
          { ml_score := 0, ml_available := false,
            ml_error := some ("ML prediction error: " ++ e), ml_details := none }
        | .ok ml_result =>
          { ml_score := ml_result.risk_score, ml_available := true, ml_error := none,
            ml_details := some
              { anomaly_score := ml_result.anomaly_score,
                is_anomaly := ml_result.is_anomaly,
                prediction := ml_result.prediction } }

/-- `RiskScorer._get_risk_level`. -/
def _get_risk_level (score : ℤ) : String :=
  if score ≥ 80 then "EXTREME RISK"
  else if score ≥ 60 then "HIGH RISK"
  else if score ≥ 40 then "MEDIUM RISK"
  else if score ≥ 20 then "LOW RISK"
  else "MINIMAL RISK"

/-- `RiskScorer._generate_explanation`. -/
def _generate_explanation (volume_result : DetectionResult VolumeSpikeDetector.Details)
    (price_result : PriceAnomalyDetector.MultiResult) (final_score : ℤ)
    (ml_result : MlScoreResult) : String :=
  let volume_part : List String :=
    if volume_result.is_suspicious then
      let vol_ratio := (volume_result.details.map (fun d => d.volume_ratio)).getD 0
      if vol_ratio > 0 then ["Trading volume is " ++ toString vol_ratio ++ "x above normal"]
      else []
    else []
  let price_part : List String :=
    if price_result.is_suspicious then
      let price_change := (price_result.details.map (fun d => d.price_change_percent)).getD 0
      let z_score := (price_result.details.map (fun d => d.z_score)).getD 0
      if price_change ≠ 0 then
        let direction := if price_change > 0 then "increased" else "decreased"
        ["Price " ++ direction ++ " abnormally (" ++ toString |price_change| ++
          "%, Z-score: " ++ toString z_score ++ ")"]
      else []
    else []
  let rsi_part : List String :=
    let status := price_result.rsi.status
    if status = "overbought" ∨ status = "extremely_overbought" then
      ["RSI indicates overbought condition (" ++ toString (price_result.rsi.value.getD 0) ++ ")"]
    else if status = "oversold" ∨ status = "extremely_oversold" then
      ["RSI indicates oversold condition (" ++ toString (price_result.rsi.value.getD 0) ++ ")"]
    else []
  let bb_part : List String :=
    let status := price_result.bollinger_bands.status
    if status = "overbought" then ["Price above Bollinger Band upper limit"]
    else if status = "oversold" then ["Price below Bollinger Band lower limit"]
    else []
  let ml_part : List String :=
    if ml_result.ml_available then
      (if ml_result.ml_score ≥ 70 then
        ["ML model detected high-risk pattern (score: " ++ toString ml_result.ml_score ++ ")"]
      else if ml_result.ml_score ≥ 50 then
        ["ML model detected moderate risk (score: " ++ toString ml_result.ml_score ++ ")"]
      else []) ++
      (if (ml_result.ml_details.map (fun d => d.is_anomaly)).getD false then
        ["ML model flagged as anomaly pattern"]
      else [])
    else []
  let explanations := volume_part ++ price_part ++ rsi_part ++ bb_part ++ ml_part
  if explanations.isEmpty then
    if final_score ≥ 40 then "Multiple weak signals detected - monitor for further activity"
    else "No significant anomalies detected - normal trading activity"
  else
    String.intercalate " | " explanations

/-- `RiskScorer._identify_red_flags`. -/
def _identify_red_flags (volume_result : DetectionResult VolumeSpikeDetector.Details)
    (price_result : PriceAnomalyDetector.MultiResult)
    (ml_result : MlScoreResult) : List String :=
  let volume_risk := volume_result.risk_score
  let price_risk := price_result.risk_score
  let vol_ratio := (volume_result.details.map (fun d => d.volume_ratio)).getD 0
  let price_change := (price_result.details.map (fun d => d.price_change_percent)).getD 0
  let volume_flags : List String :=
    if volume_risk ≥ 80 then ["🚨 EXTREME volume spike (" ++ toString vol_ratio ++ "x normal)"]
    else if volume_risk ≥ 60 then ["⚠️ HIGH volume spike (" ++ toString vol_ratio ++ "x normal)"]
    else []
  let price_flags : List String :=
    if price_risk ≥ 80 then ["🚨 EXTREME price movement (" ++ toString |price_change| ++ "%)"]
    else if price_risk ≥ 60 then ["⚠️ UNUSUAL price movement (" ++ toString |price_change| ++ "%)"]
    else []
  let rsi_flags : List String :=
    let status := price_result.rsi.status
    if status = "extremely_overbought" then
      ["🚨 RSI extremely overbought (" ++ toString (price_result.rsi.value.getD 0) ++ ")"]
    else if status = "extremely_oversold" then
      ["🚨 RSI extremely oversold (" ++ toString (price_result.rsi.value.getD 0) ++ ")"]
    else []
  let momentum_flags : List String :=
    let status := price_result.momentum.status
    if status = "extreme_momentum" ∨ status = "very_high_momentum" then
      ["⚠️ High price momentum (" ++ toString (price_result.momentum.value.getD 0) ++ "%)"]
    else []
  let ml_flags : List String :=
    if ml_result.ml_available then
      (if ml_result.ml_score ≥ 80 then
        ["🚨 ML MODEL: EXTREME risk detected (score: " ++ toString ml_result.ml_score ++ ")"]
      else if ml_result.ml_score ≥ 60 then
        ["⚠️ ML MODEL: High risk detected (score: " ++ toString ml_result.ml_score ++ ")"]
      else []) ++
      (if (ml_result.ml_details.map (fun d => d.is_anomaly)).getD false then
        ["🤖 ML MODEL: Anomaly pattern detected"]
      else [])
    else []
  let combined_flags : List String :=
    if volume_result.is_suspicious ∧ price_result.is_suspicious then
      ["🚨 CRITICAL: Both volume AND price showing anomalies (classic pump-and-dump pattern)"]
    else []
  let ml_stat_flags : List String :=
    if ml_result.ml_available ∧ ml_result.ml_score ≥ 60 ∧ (volume_risk ≥ 60 ∨ price_risk ≥ 60) then
      ["🚨 CRITICAL: ML model AND statistical methods both flagging high risk"]
    else []
  volume_flags ++ price_flags ++ rsi_flags ++ momentum_flags ++ ml_flags ++
    combined_flags ++ ml_stat_flags

/-- `RiskScorer._get_recommendation`. -/
def _get_recommendation (risk_score : ℤ) : String :=
  if risk_score ≥ 80 then
    "⛔ DO NOT BUY - Extremely high manipulation risk. Likely pump-and-dump in progress."
  else if risk_score ≥ 60 then
    "⚠️ AVOID - High risk detected. Wait for more information before investing."
  else if risk_score ≥ 40 then
    "⚡ CAUTION - Moderate risk. Research thoroughly and verify news before investing."
  else if risk_score ≥ 20 then
    "ℹ️ MONITOR - Low risk but worth watching. Proceed with normal due diligence."
  else
    "✅ NORMAL - No significant manipulation signals detected."

/-- `RiskScorer.calculate_risk_score`: runs the two statistical
detectors and the guarded ML step, redistributes the ml weight when
the model is unavailable, truncates the weighted sum to an int, and
assembles the full assessment. -/
def calculate_risk_score (rs : RiskScorer) (stock_data : Series) (ticker : String := "UNKNOWN") :
    RiskAssessment :=
  let volume_result := VolumeSpikeDetector.detect volumeCfg stock_data
  let price_result := PriceAnomalyDetector.detect_multiple_indicators priceCfg stock_data
  let ml_result := _get_ml_score rs stock_data ticker
  let ml_score := ml_result.ml_score
  let ml_available := ml_result.ml_available
  let social_score : ℚ := 0
  let volume_risk := volume_result.risk_score
  let price_risk := price_result.risk_score
  let effective_weights := if ¬ ml_available then redistribute (weights rs) else weights rs
  let final_risk_score := pyInt
    ((volume_risk : ℚ) * effective_weights.volume +
     (price_risk : ℚ) * effective_weights.price +
     social_score * effective_weights.social +
     ml_score * effective_weights.ml)
  let risk_level := _get_risk_level final_risk_score
  { ticker := ticker,
    risk_score := final_risk_score,
    risk_level := risk_level,
    is_suspicious := final_risk_score ≥ 60,
    explanation := _generate_explanation volume_result price_result final_risk_score ml_result,
    red_flags := _identify_red_flags volume_result price_result ml_result,
    individual_scores :=
      [("volume_spike", (volume_risk : ℚ)), ("price_anomaly", (price_risk : ℚ)),
       ("social_sentiment", social_score), ("ml_anomaly", ml_score)],
    ml_status := some { enabled := ml_available, error := ml_result.ml_error, score := ml_score },
    recommendation := _get_recommendation final_risk_score }

/-- The error-shaped record `batch_calculate_risk` builds for a ticker
whose computation raised (note: no `ml_status`, empty `red_flags` and
`individual_scores`, and the out-of-band level string `ERROR`). -/
def errorAssessment (ticker : String) (e : String) : RiskAssessment :=
  { ticker := ticker, risk_score := 0, risk_level := "ERROR", is_suspicious := false,
    explanation := "Error calculating risk: " ++ e, red_flags := [],
    individual_scores := [], ml_status := none,
    recommendation := "Unable to analyze - data error" }

/-- `RiskScorer.batch_calculate_risk`: applies the per-ticker scoring
body to every entry, isolating a raised exception into an error-shaped
record for that ticker only.  The body is passed explicitly as an
`Except`-valued function: in Python it is `self.calculate_risk_score`,
which can raise on malformed frames; the non-raising instantiation is
`fun t s => .ok (calculate_risk_score rs s t)`. -/
def batch_calculate_risk (body : String → Series → Except String RiskAssessment)
    (stock_data_dict : List (String × Series)) : List (String × RiskAssessment) :=
  stock_data_dict.map (fun p =>
    (p.1, match body p.1 p.2 with
      | .ok r => r
      | .error e => errorAssessment p.1 e))

end RiskScorer

/-! ### Concrete inputs used by witnesses and counterexamples -/

/-- A flat trading day: all prices 100, volume `v`. -/
def flatRow (v : ℚ) : Row :=
  { Date := { serial := 0, dayofweek := 0, day := 1 }, Open := 100, High := 100,
    Low := 100, Close := 100, Volume := v }

/-- A flat-volume day with close `c` (open/high/low equal to close). -/
def closeRow (c : ℚ) : Row :=
  { Date := { serial := 0, dayofweek := 0, day := 1 }, Open := c, High := c,
    Low := c, Close := c, Volume := 100 }

/-- 30 days of constant price 100 and volume 100, except a final-day
volume of 160 (ratio 160/102 against the trailing 30-day average). -/
def series30 : Series :=
  [flatRow 100, flatRow 100, flatRow 100, flatRow 100, flatRow 100,
   flatRow 100, flatRow 100, flatRow 100, flatRow 100, flatRow 100,
   flatRow 100, flatRow 100, flatRow 100, flatRow 100, flatRow 100,
   flatRow 100, flatRow 100, flatRow 100, flatRow 100, flatRow 100,
   flatRow 100, flatRow 100, flatRow 100, flatRow 100, flatRow 100,
   flatRow 100, flatRow 100, flatRow 100, flatRow 100, flatRow 160]

/-- 10 days: nine at close 100, then a close of 120 (a 20% 10-day
momentum, with every other indicator below its data requirement). -/
def series10 : Series :=
  [closeRow 100, closeRow 100, closeRow 100, closeRow 100, closeRow 100,
   closeRow 100, closeRow 100, closeRow 100, closeRow 100, closeRow 120]

/-- A scorer without an attached model (`use_ml=False`, or the model
file was not found). -/
def rsNoMl : RiskScorer :=
  { ml_enabled := false, ml_error := none,
    extractFn := fun _ => .error "unreached", predictFn := fun _ => .error "unreached" }

theorem series30_length : series30.length = 30 := rfl

theorem series10_length : series10.length = 10 := rfl

theorem vol30_avg :
    (Col.rollingMean 30 (Col.lift series30.volumes)).last = some 102 := by
  rw [Col.last_rollingMean 30 (Col.lift series30.volumes)
    (by simp [series30, Series.volumes, Col.lift, flatRow])]
  norm_num [series30, Series.volumes, flatRow, Col.lift, Col.meanQ, List.reduceOption,
    List.filterMap_cons, List.filterMap_nil]

theorem vol30_current : ilocNeg series30.volumes 1 = 160 := by
  norm_num [ilocNeg, series30, Series.volumes, flatRow]

theorem volume_detect_series30 :
    (VolumeSpikeDetector.detect RiskScorer.volumeCfg series30).risk_score = 30 := by
  simp only [VolumeSpikeDetector.detect, RiskScorer.volumeCfg, series30_length]
  rw [if_neg (by norm_num), vol30_avg, vol30_current]
  norm_num [VolumeSpikeDetector._calculate_risk_score]

theorem volume_detect_series30_not_susp :
    (VolumeSpikeDetector.detect RiskScorer.volumeCfg series30).is_suspicious = false := by
  simp only [VolumeSpikeDetector.detect, RiskScorer.volumeCfg, series30_length]
  rw [if_neg (by norm_num), vol30_avg, vol30_current]
  norm_num

/-- The percent-return column of the flat series: NaN then zeros. -/
theorem returns_series30 :
    Col.map1 (· * 100) (Col.pctChange series30.closes) =
      none :: List.replicate 29 (some 0) := by
  norm_num [series30, Series.closes, flatRow, Col.pctChange, Col.map1, List.replicate_succ]

theorem roll30_mean_of_ret :
    (Col.rollingMean 30 (none :: List.replicate 29 (some (0 : ℚ)))).last = none := by
  rw [Col.last_rollingMean 30 _ (by simp)]
  simp [List.replicate_succ]

theorem roll30_std_of_ret :
    (Col.rollingStd 30 (none :: List.replicate 29 (some (0 : ℚ)))).last = none := by
  rw [Col.last_rollingStd 30 _ (by simp)]
  simp [List.replicate_succ]

theorem last_of_ret :
    Col.last (none :: List.replicate 29 (some (0 : ℚ))) = some 0 := by
  simp [Col.last, List.replicate_succ]

theorem price_detect_series30 :
    PriceAnomalyDetector.detect RiskScorer.priceCfg series30 =
      { is_suspicious := false, risk_score := 0, message := "Invalid price data",
        details := none } := by
  simp only [PriceAnomalyDetector.detect, RiskScorer.priceCfg, series30_length]
  rw [if_neg (by norm_num), returns_series30, roll30_mean_of_ret, roll30_std_of_ret, last_of_ret]

theorem closes_series30 : series30.closes = List.replicate 30 100 := by
  norm_num [series30, Series.closes, flatRow, List.replicate_succ]

theorem boll30_mean :
    (Col.rollingMean 20 (Col.lift (List.replicate 30 (100 : ℚ)))).last = some 100 := by
  rw [Col.last_rollingMean 20 _ (by simp [Col.lift])]
  norm_num [Col.lift, Col.meanQ, List.replicate_succ, List.reduceOption,
    List.filterMap_cons, List.filterMap_nil]

theorem boll30_std :
    (Col.rollingStd 20 (Col.lift (List.replicate 30 (100 : ℚ)))).last = some 0 := by
  rw [Col.last_rollingStd 20 _ (by simp [Col.lift])]
  norm_num [Col.lift, Col.stdQ, Col.varQ, Col.meanQ, List.replicate_succ, List.reduceOption,
    List.filterMap_cons, List.filterMap_nil]

theorem boll_series30 :
    (PriceAnomalyDetector._check_bollinger_bands series30 20).risk_score = 0 := by
  simp only [PriceAnomalyDetector._check_bollinger_bands, series30_length, closes_series30]
  rw [if_neg (by norm_num), boll30_mean, boll30_std]
  norm_num [ilocNeg, List.replicate_succ]

theorem rsi_gains_series30 :
    (Col.diffQ series30.closes).map (fun c =>
      match c with
      | some x => if x > 0 then x else 0
      | none => 0) = List.replicate 30 (0 : ℚ) := by
  norm_num [series30, Series.closes, flatRow, Col.diffQ, Col.diffC, Col.lift,
    List.replicate_succ]

theorem rsi_losses_series30 :
    (Col.diffQ series30.closes).map (fun c =>
      match c with
      | some x => if x < 0 then -x else 0
      | none => 0) = List.replicate 30 (0 : ℚ) := by
  norm_num [series30, Series.closes, flatRow, Col.diffQ, Col.diffC, Col.lift,
    List.replicate_succ]

theorem roll14_zero :
    (Col.rollingMean 14 (Col.lift (List.replicate 30 (0 : ℚ)))).last = some 0 := by
  rw [Col.last_rollingMean 14 _ (by simp [Col.lift])]
  norm_num [Col.lift, Col.meanQ, List.replicate_succ, List.reduceOption,
    List.filterMap_cons, List.filterMap_nil]

theorem rsi_series30 :
    (PriceAnomalyDetector._check_rsi series30 14).risk_score = 0 := by
  simp only [PriceAnomalyDetector._check_rsi, series30_length]
  rw [if_neg (by norm_num), rsi_gains_series30, rsi_losses_series30, roll14_zero]
  norm_num [PriceAnomalyDetector.rsiValue]

theorem momentum_series30 :
    (PriceAnomalyDetector._check_momentum series30 10).risk_score = 0 := by
  simp only [PriceAnomalyDetector._check_momentum, series30_length]
  rw [if_neg (by norm_num)]
  norm_num [ilocNeg, closes_series30, List.replicate_succ]

theorem price_multi_series30 :
    (PriceAnomalyDetector.detect_multiple_indicators RiskScorer.priceCfg series30).risk_score
      = 0 := by
  simp only [PriceAnomalyDetector.detect_multiple_indicators]
  rw [price_detect_series30]
  norm_num [boll_series30, rsi_series30, momentum_series30,
    PriceAnomalyDetector._combine_risk_scores, pyInt]

theorem ml_score_rsNoMl (s : Series) (t : String) :
    RiskScorer._get_ml_score rsNoMl s t =
      { ml_score := 0, ml_available := false,
        ml_error := some "ML model not enabled", ml_details := none } := by
  simp [RiskScorer._get_ml_score, rsNoMl]

theorem calc_series30_score :
    (RiskScorer.calculate_risk_score rsNoMl series30 "TEST").risk_score = 11 := by
  simp only [RiskScorer.calculate_risk_score, ml_score_rsNoMl, volume_detect_series30,
    price_multi_series30]
  norm_num [RiskScorer.weights, RiskScorer.redistribute, rsNoMl, pyInt]

theorem closes_series10 :
    series10.closes = [100, 100, 100, 100, 100, 100, 100, 100, 100, 120] := by
  norm_num [series10, Series.closes, closeRow]

theorem price_detect_series10 :
    (PriceAnomalyDetector.detect RiskScorer.priceCfg series10).risk_score = 0 := by
  simp only [PriceAnomalyDetector.detect, RiskScorer.priceCfg, series10_length]
  rw [if_pos (by norm_num)]

theorem boll_series10 :
    PriceAnomalyDetector._check_bollinger_bands series10 20 =
      { risk_score := 0, status := "insufficient_data", value := none } := by
  simp only [PriceAnomalyDetector._check_bollinger_bands, series10_length]
  rw [if_pos (by norm_num)]

theorem rsi_series10 :
    PriceAnomalyDetector._check_rsi series10 14 =
      { risk_score := 0, status := "insufficient_data", value := none } := by
  simp only [PriceAnomalyDetector._check_rsi, series10_length]
  rw [if_pos (by norm_num)]

theorem momentum_series10 :
    (PriceAnomalyDetector._check_momentum series10 10).risk_score = 85 := by
  simp only [PriceAnomalyDetector._check_momentum, series10_length]
  rw [if_neg (by norm_num)]
  norm_num [ilocNeg, closes_series10]

theorem price_multi_series10 :
    (PriceAnomalyDetector.detect_multiple_indicators RiskScorer.priceCfg series10).risk_score
      = 12 := by
  simp only [PriceAnomalyDetector.detect_multiple_indicators]
  rw [boll_series10, rsi_series10]
  norm_num [price_detect_series10, momentum_series10,
    PriceAnomalyDetector._combine_risk_scores, pyInt]

/-! ### Bound lemmas for the sub-indicator scores -/

theorem pyInt_le_of_le {q : ℚ} {c : ℤ} (h : q ≤ (c : ℚ)) : pyInt q ≤ c := by
  unfold pyInt
  split
  · calc ⌊q⌋ ≤ ⌊(c : ℚ)⌋ := Int.floor_le_floor h
    _ = c := Int.floor_intCast c
  · calc ⌈q⌉ ≤ ⌈(c : ℚ)⌉ := Int.ceil_le_ceil h
    _ = c := Int.ceil_intCast c

theorem le_pyInt_of_le {q : ℚ} {c : ℤ} (h : (c : ℚ) ≤ q) : c ≤ pyInt q := by
  unfold pyInt
  split
  · exact Int.le_floor.mpr h
  · exact_mod_cast le_trans h (Int.le_ceil q)

theorem bollinger_risk_le (s : Series) (w : ℕ) :
    (PriceAnomalyDetector._check_bollinger_bands s w).risk_score ≤ 100 := by
  unfold PriceAnomalyDetector._check_bollinger_bands
  split
  · norm_num
  · dsimp only
    split
    · split
      · exact min_le_right _ _
      · split
        · exact min_le_right _ _
        · norm_num
    · norm_num

theorem rsi_risk_le (s : Series) (w : ℕ) :
    (PriceAnomalyDetector._check_rsi s w).risk_score ≤ 90 := by
  unfold PriceAnomalyDetector._check_rsi
  split
  · norm_num
  · dsimp only
    split
    · split
      · norm_num
      · split
        · norm_num
        · split
          · norm_num
          · split
            · norm_num
            · split <;> norm_num
    · norm_num

theorem momentum_risk_le (s : Series) (w : ℕ) :
    (PriceAnomalyDetector._check_momentum s w).risk_score ≤ 100 := by
  unfold PriceAnomalyDetector._check_momentum
  split
  · norm_num
  · dsimp only
    split
    · norm_num
    · split
      · norm_num
      · split
        · norm_num
        · split <;> norm_num

/-- Band analysis of the `predict_single` risk mapping after the final
clamp. -/
theorem riskBands (a : ℚ) :
    (0 ≤ clamp01to100 (IsolationForest.riskFromAnomalyScore a) ∧
      clamp01to100 (IsolationForest.riskFromAnomalyScore a) ≤ 100) ∧
    (a < -(1/2) → 80 ≤ clamp01to100 (IsolationForest.riskFromAnomalyScore a)) ∧
    (-(1/2) ≤ a → a < 0 →
      60 ≤ clamp01to100 (IsolationForest.riskFromAnomalyScore a) ∧
      clamp01to100 (IsolationForest.riskFromAnomalyScore a) ≤ 80) ∧
    (0 ≤ a → a < 1/2 →
      30 ≤ clamp01to100 (IsolationForest.riskFromAnomalyScore a) ∧
      clamp01to100 (IsolationForest.riskFromAnomalyScore a) ≤ 60) ∧
    (1/2 ≤ a → clamp01to100 (IsolationForest.riskFromAnomalyScore a) ≤ 30) := by
  unfold clamp01to100 IsolationForest.riskFromAnomalyScore
  refine ⟨⟨le_max_left 0 _, max_le (by norm_num) (min_le_left 100 _)⟩, ?_, ?_, ?_, ?_⟩
  · intro h
    rw [if_pos h, abs_of_neg (by linarith)]
    exact le_trans (le_min (by norm_num) (by nlinarith)) (le_max_right 0 _)
  · intro h1 h2
    rw [if_neg (by linarith), if_pos h2, abs_of_neg h2]
    constructor
    · exact le_trans (le_min (by norm_num) (by nlinarith)) (le_max_right 0 _)
    · exact max_le (by norm_num) (le_trans (min_le_right 100 _) (by nlinarith))
  · intro h1 h2
    rw [if_neg (by linarith), if_neg (by linarith), if_pos h2]
    constructor
    · exact le_trans (le_min (by norm_num) (by nlinarith)) (le_max_right 0 _)
    · exact max_le (by norm_num) (le_trans (min_le_right 100 _) (by nlinarith))
  · intro h
    rw [if_neg (by linarith), if_neg (by linarith), if_neg (by linarith)]
    exact max_le (by norm_num) (le_trans (min_le_right 100 _) (by nlinarith))

theorem get_risk_level_ne_error (sc : ℤ) : RiskScorer._get_risk_level sc ≠ "ERROR" := by
  unfold RiskScorer._get_risk_level
  split_ifs <;> simp

/-! ### Shape lemmas for the feature engineer -/

@[simp] theorem Series.length_closes (s : Series) : s.closes.length = s.length := by
  simp [Series.closes]

@[simp] theorem Series.length_opens (s : Series) : s.opens.length = s.length := by
  simp [Series.opens]

@[simp] theorem Series.length_highs (s : Series) : s.highs.length = s.length := by
  simp [Series.highs]

@[simp] theorem Series.length_lows (s : Series) : s.lows.length = s.length := by
  simp [Series.lows]

@[simp] theorem Series.length_volumes (s : Series) : s.volumes.length = s.length := by
  simp [Series.volumes]

namespace FeatureEngineer

/-- Key-level effect of one dict assignment. -/
def insertKey (ks : List String) (k : String) : List String :=
  if k ∈ ks then ks else ks ++ [k]

/-- Key-level effect of `dict.update`. -/
def insertKeys (ks new : List String) : List String := new.foldl insertKey ks

theorem keys_updateDict (d : FeatureTable) (k : String) (v : Col) :
    (updateDict d k v).map Prod.fst = insertKey (d.map Prod.fst) k := by
  unfold updateDict insertKey
  by_cases h : d.any (fun p => p.1 = k)
  · rw [if_pos h, if_pos]
    · rw [List.map_map]
      apply List.map_congr_left
      intro p _
      by_cases hpk : p.1 = k
      · simp [hpk]
      · simp [hpk]
    · simp only [List.any_eq_true, decide_eq_true_eq] at h
      obtain ⟨p, hp, he⟩ := h
      exact List.mem_map.mpr ⟨p, hp, he⟩
  · rw [if_neg h, if_neg]
    · simp
    · simp only [List.any_eq_true, decide_eq_true_eq] at h
      intro hk
      obtain ⟨p, hp, he⟩ := List.mem_map.mp hk
      exact h ⟨p, hp, he⟩

theorem keys_mergeInto (d : FeatureTable) (kv : FeatureTable) :
    (mergeInto d kv).map Prod.fst = insertKeys (d.map Prod.fst) (kv.map Prod.fst) := by
  induction kv generalizing d with
  | nil => rfl
  | cons p kv ih =>
    show (mergeInto (updateDict d p.1 p.2) kv).map Prod.fst = _
    rw [ih, keys_updateDict]
    rfl

/-- All columns of a table have a given row count. -/
def colsLen (t : FeatureTable) (n : ℕ) : Prop := ∀ p ∈ t, (Prod.snd p).length = n

theorem colsLen_updateDict {n : ℕ} {d : FeatureTable} {k : String} {v : Col}
    (hd : colsLen d n) (hv : v.length = n) : colsLen (updateDict d k v) n := by
  intro p hp
  unfold updateDict at hp
  split at hp
  · obtain ⟨q, hq, rfl⟩ := List.mem_map.mp hp
    by_cases hqk : q.1 = k
    · simpa [hqk] using hv
    · simpa [hqk] using hd q hq
  · rcases List.mem_append.mp hp with h | h
    · exact hd p h
    · rcases List.mem_singleton.mp h with rfl
      exact hv

theorem colsLen_mergeInto {n : ℕ} {d kv : FeatureTable}
    (hd : colsLen d n) (hkv : colsLen kv n) : colsLen (mergeInto d kv) n := by
  induction kv generalizing d with
  | nil => exact hd
  | cons p kv ih =>
    show colsLen (mergeInto (updateDict d p.1 p.2) kv) n
    exact ih (colsLen_updateDict hd (hkv p (List.mem_cons_self p kv)))
      (fun q hq => hkv q (List.mem_cons_of_mem p hq))

theorem keys_volume_price_divergence (w : ℕ) (data : Series) :
    (_volume_price_divergence w data).map Prod.fst =
      ["volume_price_correlation", "volume_price_ratio", "volume_acceleration",
       "price_acceleration", "volume_price_accel_diff", "volume_price_divergence"] := rfl

theorem keys_price_acceleration (w : ℕ) (data : Series) :
    (_price_acceleration w data).map Prod.fst =
      ["price_acceleration", "price_acceleration_rate", "price_accel_magnitude",
       "sudden_acceleration_zscore", "acceleration_reversal"] := rfl

theorem keys_intraday_patterns (w : ℕ) (data : Series) :
    (_intraday_patterns w data).map Prod.fst =
      ["intraday_range_pct", "intraday_range_ratio", "close_position_in_range",
       "gap_pct", "gap_filled", "intraday_volatility_ratio"] := rfl

theorem keys_multi_day_momentum (data : Series) :
    (_multi_day_momentum data).map Prod.fst =
      ["momentum_3d", "momentum_5d", "momentum_change", "momentum_reversal",
       "momentum_consistency", "momentum_volume_ratio"] := rfl

theorem keys_liquidity_features (w : ℕ) (data : Series) :
    (_liquidity_features w data).map Prod.fst =
      ["volume_to_price_ratio", "volume_price_ratio_vs_avg", "dollar_volume",
       "dollar_volume_ratio", "price_impact", "liquidity_score"] := rfl

theorem keys_price_stability (w : ℕ) (data : Series) :
    (_price_stability w data).map Prod.fst =
      ["price_volatility", "volatility_ratio", "price_oscillation",
       "price_stability_score", "hl_spread", "hl_spread_ratio"] := rfl

theorem keys_volume_distribution (w : ℕ) (data : Series) :
    (_volume_distribution w data).map Prod.fst =
      ["volume_trend", "volume_consistency", "volume_spike_duration",
       "volume_mean_reversion"] := rfl

theorem keys_time_based_features (data : Series) :
    (_time_based_features data).map Prod.fst =
      ["day_of_week", "is_weekend", "day_of_month", "is_month_end",
       "is_month_beginning"] := rfl

theorem keys_reversal_patterns (w : ℕ) (data : Series) :
    (_reversal_patterns w data).map Prod.fst =
      ["reversal_pattern", "reversal_magnitude", "pump_dump_pattern",
       "price_reversal_score"] := rfl

theorem colsLen_volume_price_divergence (w : ℕ) (data : Series) :
    colsLen (_volume_price_divergence w data) data.length := by
  intro p hp
  simp only [_volume_price_divergence, List.mem_cons, List.not_mem_nil, or_false] at hp
  rcases hp with rfl | rfl | rfl | rfl | rfl | rfl <;> simp

theorem colsLen_price_acceleration (w : ℕ) (data : Series) :
    colsLen (_price_acceleration w data) data.length := by
  intro p hp
  simp only [_price_acceleration, List.mem_cons, List.not_mem_nil, or_false] at hp
  rcases hp with rfl | rfl | rfl | rfl | rfl <;> simp

theorem colsLen_intraday_patterns (w : ℕ) (data : Series) :
    colsLen (_intraday_patterns w data) data.length := by
  intro p hp
  simp only [_intraday_patterns, List.mem_cons, List.not_mem_nil, or_false] at hp
  rcases hp with rfl | rfl | rfl | rfl | rfl | rfl <;> simp

theorem colsLen_multi_day_momentum (data : Series) :
    colsLen (_multi_day_momentum data) data.length := by
  intro p hp
  simp only [_multi_day_momentum, List.mem_cons, List.not_mem_nil, or_false] at hp
  rcases hp with rfl | rfl | rfl | rfl | rfl | rfl <;> simp

theorem colsLen_liquidity_features (w : ℕ) (data : Series) :
    colsLen (_liquidity_features w data) data.length := by
  intro p hp
  simp only [_liquidity_features, List.mem_cons, List.not_mem_nil, or_false] at hp
  rcases hp with rfl | rfl | rfl | rfl | rfl | rfl <;> simp

theorem colsLen_price_stability (w : ℕ) (data : Series) :
    colsLen (_price_stability w data) data.length := by
  intro p hp
  simp only [_price_stability, List.mem_cons, List.not_mem_nil, or_false] at hp
  rcases hp with rfl | rfl | rfl | rfl | rfl | rfl <;> simp

theorem colsLen_volume_distribution (w : ℕ) (data : Series) :
    colsLen (_volume_distribution w data) data.length := by
  intro p hp
  simp only [_volume_distribution, List.mem_cons, List.not_mem_nil, or_false] at hp
  rcases hp with rfl | rfl | rfl | rfl <;> simp

theorem colsLen_time_based_features (data : Series) :
    colsLen (_time_based_features data) data.length := by
  intro p hp
  simp only [_time_based_features, List.mem_cons, List.not_mem_nil, or_false] at hp
  rcases hp with rfl | rfl | rfl | rfl | rfl <;> simp

theorem colsLen_reversal_patterns (w : ℕ) (data : Series) :
    colsLen (_reversal_patterns w data) data.length := by
  intro p hp
  simp only [_reversal_patterns, List.mem_cons, List.not_mem_nil, or_false] at hp
  rcases hp with rfl | rfl | rfl | rfl <;> simp

/-- The merged feature dictionary underlying `extract_features`. -/
def mergedFeatures (w : ℕ) (data : Series) : FeatureTable :=
  mergeInto (mergeInto (mergeInto (mergeInto (mergeInto (mergeInto
    (mergeInto (mergeInto (_volume_price_divergence w data)
      (_price_acceleration w data))
      (_intraday_patterns w data))
      (_multi_day_momentum data))
      (_liquidity_features w data))
      (_price_stability w data))
      (_volume_distribution w data))
      (_time_based_features data))
    (_reversal_patterns w data)

theorem extract_features_eq (w : ℕ) (s : Series) (h : ¬ s.length < w) :
    extract_features w s =
      (if rowCount (mergedFeatures w (sortByDate s)) ≠ (sortByDate s).length then
        (mergedFeatures w (sortByDate s)).map (fun p => (p.1, p.2.take (sortByDate s).length))
      else mergedFeatures w (sortByDate s)) := by
  unfold extract_features mergedFeatures
  rw [if_neg h]

set_option maxRecDepth 4000 in
theorem keys_mergedFeatures (w : ℕ) (data : Series) :
    (mergedFeatures w data).map Prod.fst = featureNames := by
  unfold mergedFeatures
  rw [keys_mergeInto, keys_mergeInto, keys_mergeInto, keys_mergeInto, keys_mergeInto,
    keys_mergeInto, keys_mergeInto, keys_mergeInto, keys_volume_price_divergence,
    keys_price_acceleration, keys_intraday_patterns, keys_multi_day_momentum,
    keys_liquidity_features, keys_price_stability, keys_volume_distribution,
    keys_time_based_features, keys_reversal_patterns]
  decide

theorem colsLen_mergedFeatures (w : ℕ) (data : Series) :
    colsLen (mergedFeatures w data) data.length := by
  unfold mergedFeatures
  exact colsLen_mergeInto (colsLen_mergeInto (colsLen_mergeInto (colsLen_mergeInto
    (colsLen_mergeInto (colsLen_mergeInto (colsLen_mergeInto (colsLen_mergeInto
      (colsLen_volume_price_divergence w data)
      (colsLen_price_acceleration w data))
      (colsLen_intraday_patterns w data))
      (colsLen_multi_day_momentum data))
      (colsLen_liquidity_features w data))
      (colsLen_price_stability w data))
      (colsLen_volume_distribution w data))
      (colsLen_time_based_features data))
    (colsLen_reversal_patterns w data)

theorem keys_extract_features (w : ℕ) (s : Series) (h : ¬ s.length < w) :
    (extract_features w s).map Prod.fst = featureNames := by
  rw [extract_features_eq w s h]
  split
  · rw [List.map_map]
    have : (Prod.fst ∘ fun p : String × Col => (p.1, p.2.take (sortByDate s).length)) =
        Prod.fst := by
      funext p
      rfl
    rw [this, keys_mergedFeatures]
  · exact keys_mergedFeatures w (sortByDate s)

theorem colsLen_extract_features (w : ℕ) (s : Series) (h : ¬ s.length < w) :
    colsLen (extract_features w s) s.length := by
  rw [extract_features_eq w s h]
  have hlen := colsLen_mergedFeatures w (sortByDate s)
  have hsort : (sortByDate s).length = s.length := length_sortByDate s
  split
  · intro p hp
    obtain ⟨q, hq, rfl⟩ := List.mem_map.mp hp
    have := hlen q hq
    simp only [List.length_take, this, hsort]
    omega
  · intro p hp
    rw [hlen p hp] at *
    exact hsort

end FeatureEngineer

theorem volume_detect_short (cfg : VolumeSpikeDetector.Config) (s : Series)
    (h : s.length < cfg.window_days) :
    VolumeSpikeDetector.detect cfg s =
      { is_suspicious := false, risk_score := 0,
        message := "Insufficient data (need at least " ++ toString cfg.window_days ++ " days)",
        details := none } := by
  unfold VolumeSpikeDetector.detect
  rw [if_pos h]

theorem price_detect_short (cfg : PriceAnomalyDetector.Config) (s : Series)
    (h : s.length < cfg.window_days) :
    PriceAnomalyDetector.detect cfg s =
      { is_suspicious := false, risk_score := 0,
        message := "Insufficient data (need at least " ++ toString cfg.window_days ++ " days)",
        details := none } := by
  unfold PriceAnomalyDetector.detect
  rw [if_pos h]

/-- The combination step, read off `detect_multiple_indicators`. -/
theorem detect_multiple_risk_eq (cfg : PriceAnomalyDetector.Config) (s : Series) :
    (PriceAnomalyDetector.detect_multiple_indicators cfg s).risk_score =
      pyInt (((PriceAnomalyDetector.detect cfg s).risk_score : ℚ) * (40/100) +
        ((PriceAnomalyDetector._check_bollinger_bands s 20).risk_score : ℚ) * (25/100) +
        ((PriceAnomalyDetector._check_rsi s 14).risk_score : ℚ) * (20/100) +
        ((PriceAnomalyDetector._check_momentum s 10).risk_score : ℚ) * (15/100)) := by
  simp only [PriceAnomalyDetector.detect_multiple_indicators,
    PriceAnomalyDetector._combine_risk_scores, List.zipWith, List.sum_cons, List.sum_nil]
  ring_nf

theorem detect_multiple_susp_iff (cfg : PriceAnomalyDetector.Config) (s : Series) :
    (PriceAnomalyDetector.detect_multiple_indicators cfg s).is_suspicious = true ↔
      60 ≤ (PriceAnomalyDetector.detect_multiple_indicators cfg s).risk_score := by
  simp only [PriceAnomalyDetector.detect_multiple_indicators]
  simp [ge_iff_le]

/-- On a series shorter than the window the base z-score detector
contributes 0, so the combined score is at most 58 < 60 and the
multi-indicator result is never suspicious. -/
theorem detect_multiple_short_not_susp (cfg : PriceAnomalyDetector.Config) (s : Series)
    (h : s.length < cfg.window_days) :
    (PriceAnomalyDetector.detect_multiple_indicators cfg s).is_suspicious = false := by
  have hb := bollinger_risk_le s 20
  have hr := rsi_risk_le s 14
  have hm := momentum_risk_le s 10
  have hbase : (PriceAnomalyDetector.detect cfg s).risk_score = 0 := by
    rw [price_detect_short cfg s h]
  have hle : (PriceAnomalyDetector.detect_multiple_indicators cfg s).risk_score ≤ 58 := by
    rw [detect_multiple_risk_eq, hbase]
    apply pyInt_le_of_le
    have hb' : ((PriceAnomalyDetector._check_bollinger_bands s 20).risk_score : ℚ) ≤ 100 := by
      exact_mod_cast hb
    have hr' : ((PriceAnomalyDetector._check_rsi s 14).risk_score : ℚ) ≤ 90 := by
      exact_mod_cast hr
    have hm' : ((PriceAnomalyDetector._check_momentum s 10).risk_score : ℚ) ≤ 100 := by
      exact_mod_cast hm
    push_cast
    linarith
  rw [Bool.eq_false_iff]
  intro hsusp
  have := (detect_multiple_susp_iff cfg s).mp hsusp
  omega

/-! ### Further concrete inputs for witnesses -/

/-- A scorer whose attached pipeline raises during feature extraction. -/
def rsErr : RiskScorer :=
  { ml_enabled := true, ml_error := none,
    extractFn := fun _ => .error "boom", predictFn := fun _ => .error "boom" }

/-- A stand-in fitted sklearn state: identity scaling, constant anomaly
score -1, constant anomaly verdict. -/
def engC6 : IsolationForest.MlEngine :=
  { transform := id, score_samples := fun _ => -1, predictSign := fun _ => -1 }

/-- A trained single-feature model over `engC6`. -/
def mC6 : IsolationForest.IsolationForestDetector :=
  { feature_columns := some ["f1"], is_trained := true, engine := engC6 }

/-- One all-zero feature row. -/
def rowC6 : FeatureRow := [("f1", some 0)]

/-- The prediction `mC6` produces on `rowC6`. -/
def resC6 : IsolationForest.PredictRow :=
  { prediction := -1, anomaly_score := -1, risk_score := 100, is_anomaly := true }

theorem predict_single_mC6 : IsolationForest.predict_single mC6 rowC6 = .ok resC6 := by
  simp only [IsolationForest.predict_single, mC6, engC6, rowC6, resC6]
  norm_num [clamp01to100, IsolationForest.riskFromAnomalyScore, List.reduceOption,
    List.filterMap_cons, List.filterMap_nil, abs_of_neg]

/-- An untrained model. -/
def mUntrained : IsolationForest.IsolationForestDetector := { engine := engC6 }

/-- A two-ticker batch where the body raises on the second ticker. -/
def dictC10 : List (String × Series) := [("GOOD", series10), ("BAD", series10)]

/-- A scoring body raising on ticker BAD only. -/
def bodyC10 : String → Series → Except String RiskScorer.RiskAssessment :=
  fun t s => if t = "BAD" then .error "boom"
    else .ok (RiskScorer.calculate_risk_score rsNoMl s t)

/-! ### The claims -/

/-- C1 (counterexample): on a concrete 30-day series with volume risk
30 and price risk 0 and no model attached, the effective weighted sum
is 11.7; the code returns `int(11.7) = 11`, not
`round(11.7) = 12` as the claim states. -/
theorem calculate_risk_score_not_round :
    (RiskScorer.calculate_risk_score rsNoMl series30 "TEST").risk_score ≠
      round ((((VolumeSpikeDetector.detect RiskScorer.volumeCfg series30).risk_score : ℚ)) *
          (RiskScorer.redistribute (RiskScorer.weights rsNoMl)).volume +
        ((PriceAnomalyDetector.detect_multiple_indicators RiskScorer.priceCfg
            series30).risk_score : ℚ) *
          (RiskScorer.redistribute (RiskScorer.weights rsNoMl)).price +
        0 * (RiskScorer.redistribute (RiskScorer.weights rsNoMl)).social +
        (RiskScorer._get_ml_score rsNoMl series30 "TEST").ml_score *
          (RiskScorer.redistribute (RiskScorer.weights rsNoMl)).ml) := by
  rw [calc_series30_score, volume_detect_series30, price_multi_series30, ml_score_rsNoMl]
  norm_num [RiskScorer.weights, RiskScorer.redistribute, rsNoMl, round_eq]

/-- C1 (amended): for every scorer, series and ticker the final risk
score is the weighted sum of the four sub-scores under the effective
weights (redistributed when the model is unavailable), truncated to an
int (`int(...)`, i.e. toward zero), not rounded to the nearest
integer. -/
theorem calculate_risk_score_truncated_weighted_sum (rs : RiskScorer) (s : Series)
    (t : String) :
    (RiskScorer.calculate_risk_score rs s t).risk_score =
      pyInt ((((VolumeSpikeDetector.detect RiskScorer.volumeCfg s).risk_score : ℚ)) *
          (if ¬ (RiskScorer._get_ml_score rs s t).ml_available then
            RiskScorer.redistribute (RiskScorer.weights rs) else RiskScorer.weights rs).volume +
        ((PriceAnomalyDetector.detect_multiple_indicators RiskScorer.priceCfg
            s).risk_score : ℚ) *
          (if ¬ (RiskScorer._get_ml_score rs s t).ml_available then
            RiskScorer.redistribute (RiskScorer.weights rs) else RiskScorer.weights rs).price +
        0 *
          (if ¬ (RiskScorer._get_ml_score rs s t).ml_available then
            RiskScorer.redistribute (RiskScorer.weights rs) else RiskScorer.weights rs).social +
        (RiskScorer._get_ml_score rs s t).ml_score *
          (if ¬ (RiskScorer._get_ml_score rs s t).ml_available then
            RiskScorer.redistribute (RiskScorer.weights rs) else RiskScorer.weights rs).ml) :=
  rfl

/-- C2 (counterexample): a valid 10-day series (fewer than the 30-day
window) on which `detect_multiple_indicators` returns a nonzero risk
score 12 (the 10-day momentum sub-indicator fires), refuting
`risk_score = 0` for the multi-indicator detector on short series. -/
theorem detect_multiple_short_nonzero_risk :
    series10.length < RiskScorer.priceCfg.window_days ∧
    (PriceAnomalyDetector.detect_multiple_indicators RiskScorer.priceCfg
      series10).risk_score = 12 :=
  ⟨by norm_num [series10_length, RiskScorer.priceCfg], price_multi_series10⟩

/-- C2 (amended): on every series shorter than the window,
`VolumeSpikeDetector.detect` and `PriceAnomalyDetector.detect` return
risk 0 and not-suspicious, and `detect_multiple_indicators` is never
suspicious (its combined score is at most 58 < 60) — but its
risk_score need not be 0, since the fixed-window sub-indicators
(Bollinger 20, RSI 14, momentum 10) still run on 10-29 rows. -/
theorem detectors_short_series_soft_fail (vcfg : VolumeSpikeDetector.Config)
    (pcfg : PriceAnomalyDetector.Config) (s : Series)
    (hv : s.length < vcfg.window_days) (hp : s.length < pcfg.window_days) :
    (VolumeSpikeDetector.detect vcfg s).risk_score = 0 ∧
    (VolumeSpikeDetector.detect vcfg s).is_suspicious = false ∧
    (PriceAnomalyDetector.detect pcfg s).risk_score = 0 ∧
    (PriceAnomalyDetector.detect pcfg s).is_suspicious = false ∧
    (PriceAnomalyDetector.detect_multiple_indicators pcfg s).is_suspicious = false := by
  rw [volume_detect_short vcfg s hv, price_detect_short pcfg s hp]
  exact ⟨rfl, rfl, rfl, rfl, detect_multiple_short_not_susp pcfg s hp⟩

/-- Witness for the amended C2 at the 10-day series. -/
theorem detectors_short_series_soft_fail_witness :
    series10.length < RiskScorer.volumeCfg.window_days ∧
    ((VolumeSpikeDetector.detect RiskScorer.volumeCfg series10).risk_score = 0 ∧
     (VolumeSpikeDetector.detect RiskScorer.volumeCfg series10).is_suspicious = false ∧
     (PriceAnomalyDetector.detect RiskScorer.priceCfg series10).risk_score = 0 ∧
     (PriceAnomalyDetector.detect RiskScorer.priceCfg series10).is_suspicious = false ∧
     (PriceAnomalyDetector.detect_multiple_indicators RiskScorer.priceCfg
       series10).is_suspicious = false) :=
  ⟨by norm_num [series10_length, RiskScorer.volumeCfg],
   detectors_short_series_soft_fail RiskScorer.volumeCfg RiskScorer.priceCfg series10
     (by norm_num [series10_length, RiskScorer.volumeCfg])
     (by norm_num [series10_length, RiskScorer.priceCfg])⟩

/-- C3: with a model attached, any exception raised during feature
extraction or single-day prediction is absorbed: the assessment is
still fully assembled, its ml sub-score is 0, ml availability is
false, and the error text is captured in `ml_status`.  (The embedded
`calculate_risk_score` is a total function, so no exception ever
reaches the caller.) -/
theorem ml_failure_absorbed (rs : RiskScorer) (s : Series) (t e : String)
    (hml : rs.ml_enabled = true)
    (hexc : rs.extractFn s = .error e ∨
      ∃ fdf, rs.extractFn s = .ok fdf ∧ fdf.isEmpty = false ∧
        rs.predictFn (RiskScorer.latestRow fdf) = .error e) :
    (RiskScorer.calculate_risk_score rs s t).ml_status =
      some { enabled := false, error := some ("ML prediction error: " ++ e), score := 0 } ∧
    (RiskScorer.calculate_risk_score rs s t).individual_scores.find?
      (fun p => p.1 = "ml_anomaly") = some ("ml_anomaly", 0) := by
  have hms : RiskScorer._get_ml_score rs s t =
      { ml_score := 0, ml_available := false,
        ml_error := some ("ML prediction error: " ++ e), ml_details := none } := by
    unfold RiskScorer._get_ml_score
    rw [if_neg (by simp [hml])]
    rcases hexc with hE | ⟨fdf, hok, hne, hperr⟩
    · rw [hE]
    · rw [hok]
      simp only [hne, Bool.false_eq_true, if_false]
      rw [hperr]
  constructor
  · simp only [RiskScorer.calculate_risk_score, hms]
  · simp only [RiskScorer.calculate_risk_score, hms]
    simp [List.find?]

/-- Witness for C3: a scorer whose feature extraction raises. -/
theorem ml_failure_absorbed_witness :
    rsErr.ml_enabled = true ∧
    (RiskScorer.calculate_risk_score rsErr series10 "T").ml_status =
      some { enabled := false, error := some ("ML prediction error: " ++ "boom"),
             score := 0 } :=
  ⟨rfl, (ml_failure_absorbed rsErr series10 "T" "boom" rfl (Or.inl rfl)).1⟩

/-- C4: for both base weight vectors fixed at construction (the ML
vector 0.30/0.35/0.10/0.25 and the fallback vector
0.35/0.40/0.15/0.10), the redistributed effective weights
(volume + 0.4 ml, price + 0.6 ml, social, 0) sum to exactly 1, in
exact rational arithmetic. -/
theorem effective_weights_sum_one (rs : RiskScorer) :
    ((RiskScorer.weights rs =
        { volume := 30/100, price := 35/100, social := 10/100, ml := 25/100 }) ∨
     (RiskScorer.weights rs =
        { volume := 35/100, price := 40/100, social := 15/100, ml := 10/100 })) ∧
    (RiskScorer.redistribute (RiskScorer.weights rs)).volume +
      (RiskScorer.redistribute (RiskScorer.weights rs)).price +
      (RiskScorer.redistribute (RiskScorer.weights rs)).social +
      (RiskScorer.redistribute (RiskScorer.weights rs)).ml = 1 := by
  by_cases h : rs.ml_enabled <;>
    simp [RiskScorer.weights, RiskScorer.redistribute, h] <;> norm_num

/-- C5: on any series of at least `window_days` rows the combined score
of `detect_multiple_indicators` is the int-truncated weighted sum
0.40 z + 0.25 bollinger + 0.20 rsi + 0.15 momentum of the four
sub-indicator scores, and `is_suspicious` holds iff that combined
score is at least 60. -/
theorem detect_multiple_weighted_combination (pcfg : PriceAnomalyDetector.Config)
    (s : Series) (h : pcfg.window_days ≤ s.length) :
    (PriceAnomalyDetector.detect_multiple_indicators pcfg s).risk_score =
      pyInt (((PriceAnomalyDetector.detect pcfg s).risk_score : ℚ) * (40/100) +
        ((PriceAnomalyDetector._check_bollinger_bands s 20).risk_score : ℚ) * (25/100) +
        ((PriceAnomalyDetector._check_rsi s 14).risk_score : ℚ) * (20/100) +
        ((PriceAnomalyDetector._check_momentum s 10).risk_score : ℚ) * (15/100)) ∧
    ((PriceAnomalyDetector.detect_multiple_indicators pcfg s).is_suspicious = true ↔
      60 ≤ (PriceAnomalyDetector.detect_multiple_indicators pcfg s).risk_score) :=
  ⟨detect_multiple_risk_eq pcfg s, detect_multiple_susp_iff pcfg s⟩

/-- Witness for C5 at the 30-day flat series. -/
theorem detect_multiple_weighted_combination_witness :
    RiskScorer.priceCfg.window_days ≤ series30.length ∧
    (PriceAnomalyDetector.detect_multiple_indicators RiskScorer.priceCfg series30).risk_score =
      pyInt (((PriceAnomalyDetector.detect RiskScorer.priceCfg series30).risk_score : ℚ) *
          (40/100) +
        ((PriceAnomalyDetector._check_bollinger_bands series30 20).risk_score : ℚ) * (25/100) +
        ((PriceAnomalyDetector._check_rsi series30 14).risk_score : ℚ) * (20/100) +
        ((PriceAnomalyDetector._check_momentum series30 10).risk_score : ℚ) * (15/100)) :=
  ⟨by norm_num [series30_length, RiskScorer.priceCfg],
   (detect_multiple_weighted_combination RiskScorer.priceCfg series30
     (by norm_num [series30_length, RiskScorer.priceCfg])).1⟩

/-- C6: every successful `predict_single` outcome carries a risk score
equal to the fixed piecewise-linear band mapping of its anomaly score
after the final clamp: below -0.5 into [80,100], in [-0.5,0) into
[60,80], in [0,0.5) into [30,60], at or above 0.5 into [0,30], and
always within [0,100] (in particular on degenerate all-zero feature
input, where the model still returns without raising). -/
theorem predict_single_fixed_bands (m : IsolationForest.IsolationForestDetector)
    (row : FeatureRow) (r : IsolationForest.PredictRow)
    (hok : IsolationForest.predict_single m row = .ok r) :
    r.risk_score = clamp01to100 (IsolationForest.riskFromAnomalyScore r.anomaly_score) ∧
    (0 ≤ r.risk_score ∧ r.risk_score ≤ 100) ∧
    (r.anomaly_score < -(1/2) → 80 ≤ r.risk_score) ∧
    (-(1/2) ≤ r.anomaly_score → r.anomaly_score < 0 →
      60 ≤ r.risk_score ∧ r.risk_score ≤ 80) ∧
    (0 ≤ r.anomaly_score → r.anomaly_score < 1/2 →
      30 ≤ r.risk_score ∧ r.risk_score ≤ 60) ∧
    (1/2 ≤ r.anomaly_score → 0 ≤ r.risk_score ∧ r.risk_score ≤ 30) := by
  unfold IsolationForest.predict_single at hok
  split at hok
  · exact absurd hok (by simp)
  · split at hok
    · exact absurd hok (by simp)
    · dsimp only at hok
      split at hok
      · exact absurd hok (by simp)
      · rw [Except.ok.injEq] at hok
        subst hok
        exact ⟨rfl, (riskBands _).1, (riskBands _).2.1, (riskBands _).2.2.1,
          (riskBands _).2.2.2.1,
          fun h => ⟨(riskBands _).1.1, (riskBands _).2.2.2.2 h⟩⟩

/-- Witness for C6: a trained single-feature model on an all-zero
feature row, with anomaly score -1 and clamped risk score 100. -/
theorem predict_single_fixed_bands_witness :
    IsolationForest.predict_single mC6 rowC6 = .ok resC6 ∧
    80 ≤ resC6.risk_score ∧ 0 ≤ resC6.risk_score ∧ resC6.risk_score ≤ 100 :=
  ⟨predict_single_mC6,
   (predict_single_fixed_bands mC6 rowC6 resC6 predict_single_mC6).2.2.1 (by norm_num [resC6]),
   (predict_single_fixed_bands mC6 rowC6 resC6 predict_single_mC6).2.1.1,
   (predict_single_fixed_bands mC6 rowC6 resC6 predict_single_mC6).2.1.2⟩

/-- C7: `extract_features` returns the empty feature set on series
shorter than `window_days`, and otherwise exactly the 47 named feature
columns (distinct names, in dictionary order), each with one row per
input trading day. -/
theorem extract_features_shape (w : ℕ) (s : Series) :
    (s.length < w → FeatureEngineer.extract_features w s = []) ∧
    (w ≤ s.length →
      (FeatureEngineer.extract_features w s).map Prod.fst = FeatureEngineer.featureNames ∧
      (FeatureEngineer.extract_features w s).length = 47 ∧
      FeatureEngineer.featureNames.Nodup ∧
      ∀ p ∈ FeatureEngineer.extract_features w s, (Prod.snd p).length = s.length) := by
  constructor
  · intro h
    unfold FeatureEngineer.extract_features
    rw [if_pos h]
  · intro h
    have h' : ¬ s.length < w := by omega
    refine ⟨FeatureEngineer.keys_extract_features w s h', ?_, by decide,
      FeatureEngineer.colsLen_extract_features w s h'⟩
    have := congrArg List.length (FeatureEngineer.keys_extract_features w s h')
    rw [List.length_map] at this
    rw [this]
    decide

/-- Witness for C7 at a 10-day series (empty) and a 30-day series
(47 columns). -/
theorem extract_features_shape_witness :
    FeatureEngineer.extract_features 30 series10 = [] ∧
    (FeatureEngineer.extract_features 30 series30).map Prod.fst =
      FeatureEngineer.featureNames ∧
    (FeatureEngineer.extract_features 30 series30).length = 47 :=
  ⟨(extract_features_shape 30 series10).1 (by norm_num [series10_length]),
   ((extract_features_shape 30 series30).2 (by norm_num [series30_length])).1,
   ((extract_features_shape 30 series30).2 (by norm_num [series30_length])).2.1⟩

set_option maxHeartbeats 2000000 in
/-- C8: the volume-ratio risk mapping is a monotone non-decreasing step
function taking exactly the values 100/90/80/70/60/50/30/0 on the
documented threshold intervals; in particular ratio 12 maps to 100,
ratio 2.2 to 50 and ratio 1.0 to 0. -/
theorem volume_risk_step_function :
    Monotone VolumeSpikeDetector._calculate_risk_score ∧
    (∀ r : ℚ, 10 ≤ r → VolumeSpikeDetector._calculate_risk_score r = 100) ∧
    (∀ r : ℚ, 5 ≤ r → r < 10 → VolumeSpikeDetector._calculate_risk_score r = 90) ∧
    (∀ r : ℚ, 4 ≤ r → r < 5 → VolumeSpikeDetector._calculate_risk_score r = 80) ∧
    (∀ r : ℚ, 3 ≤ r → r < 4 → VolumeSpikeDetector._calculate_risk_score r = 70) ∧
    (∀ r : ℚ, 5/2 ≤ r → r < 3 → VolumeSpikeDetector._calculate_risk_score r = 60) ∧
    (∀ r : ℚ, 2 ≤ r → r < 5/2 → VolumeSpikeDetector._calculate_risk_score r = 50) ∧
    (∀ r : ℚ, 3/2 ≤ r → r < 2 → VolumeSpikeDetector._calculate_risk_score r = 30) ∧
    (∀ r : ℚ, r < 3/2 → VolumeSpikeDetector._calculate_risk_score r = 0) := by
  refine ⟨?_, ?_, ?_, ?_, ?_, ?_, ?_, ?_, ?_⟩
  · intro a b hab
    unfold VolumeSpikeDetector._calculate_risk_score
    split_ifs <;> linarith
  · intro r h1
    unfold VolumeSpikeDetector._calculate_risk_score
    split_ifs <;> first | rfl | linarith
  · intro r h1 h2
    unfold VolumeSpikeDetector._calculate_risk_score
    split_ifs <;> first | rfl | linarith
  · intro r h1 h2
    unfold VolumeSpikeDetector._calculate_risk_score
    split_ifs <;> first | rfl | linarith
  · intro r h1 h2
    unfold VolumeSpikeDetector._calculate_risk_score
    split_ifs <;> first | rfl | linarith
  · intro r h1 h2
    unfold VolumeSpikeDetector._calculate_risk_score
    split_ifs <;> first | rfl | linarith
  · intro r h1 h2
    unfold VolumeSpikeDetector._calculate_risk_score
    split_ifs <;> first | rfl | linarith
  · intro r h1 h2
    unfold VolumeSpikeDetector._calculate_risk_score
    split_ifs <;> first | rfl | linarith
  · intro r h1
    unfold VolumeSpikeDetector._calculate_risk_score
    split_ifs <;> first | rfl | linarith

/-- Witness for C8 at the three quoted ratios. -/
theorem volume_risk_step_function_witness :
    VolumeSpikeDetector._calculate_risk_score 12 = 100 ∧
    VolumeSpikeDetector._calculate_risk_score (11/5) = 50 ∧
    VolumeSpikeDetector._calculate_risk_score 1 = 0 :=
  ⟨volume_risk_step_function.2.1 12 (by norm_num),
   volume_risk_step_function.2.2.2.2.2.2.1 (11/5) (by norm_num) (by norm_num),
   volume_risk_step_function.2.2.2.2.2.2.2.2 1 (by norm_num)⟩

/-- C9: in the Untrained state both `predict` and `predict_single`
raise the not-trained error (the model value itself is read-only here,
so its state is unchanged by construction); after a `train` the model
is in the Trained state and neither call raises for want of training. -/
theorem isolation_forest_state_machine :
    (∀ (m : IsolationForest.IsolationForestDetector) (data : FeatureEngineer.FeatureTable),
      m.is_trained = false →
      IsolationForest.predict m data = .error "Model not trained. Call train() first.") ∧
    (∀ (m : IsolationForest.IsolationForestDetector) (features : FeatureRow),
      m.is_trained = false →
      IsolationForest.predict_single m features =
        .error "Model not trained. Call train() first.") ∧
    (∀ m td cols eng, (IsolationForest.train m td cols eng).1.is_trained = true) ∧
    (∀ m td cols eng data,
      IsolationForest.predict (IsolationForest.train m td cols eng).1 data ≠
        .error "Model not trained. Call train() first.") ∧
    (∀ m td cols eng features,
      IsolationForest.predict_single (IsolationForest.train m td cols eng).1 features ≠
        .error "Model not trained. Call train() first.") := by
  refine ⟨?_, ?_, ?_, ?_, ?_⟩
  · intro m data h
    unfold IsolationForest.predict
    rw [if_pos (by simp [h])]
  · intro m features h
    unfold IsolationForest.predict_single
    rw [if_pos (by simp [h])]
  · intro m td cols eng
    rfl
  · intro m td cols eng data h
    unfold IsolationForest.train at h
    unfold IsolationForest.predict at h
    rw [if_neg (by simp)] at h
    dsimp only at h
    split at h
    · exact absurd h (by simp)
    · exact absurd h (by simp)
  · intro m td cols eng features h
    unfold IsolationForest.train at h
    unfold IsolationForest.predict_single at h
    rw [if_neg (by simp)] at h
    dsimp only at h
    split at h
    · exact absurd h (by simp)
    · exact absurd h (by simp)

/-- Witness for C9: an untrained model raises; after training it is
trained. -/
theorem isolation_forest_state_machine_witness :
    IsolationForest.predict_single mUntrained [] =
      .error "Model not trained. Call train() first." ∧
    IsolationForest.predict mUntrained [] =
      .error "Model not trained. Call train() first." ∧
    (IsolationForest.train mUntrained [] none engC6).1.is_trained = true :=
  ⟨isolation_forest_state_machine.2.1 mUntrained [] rfl,
   isolation_forest_state_machine.1 mUntrained [] rfl,
   isolation_forest_state_machine.2.2.1 mUntrained [] none engC6⟩

/-- C10: a per-ticker failure inside `batch_calculate_risk` yields an
error record for that ticker with risk 0, not suspicious, empty red
flags, level `ERROR` (a string `_get_risk_level` never produces) and,
unlike every successful record, no `ml_status` entry; every other
ticker whose body succeeds is mapped to its normal assessment. -/
theorem batch_error_isolation (body : String → Series → Except String RiskScorer.RiskAssessment)
    (dict : List (String × Series)) (t : String) (s : Series) (e : String)
    (hmem : (t, s) ∈ dict) (hb : body t s = .error e) :
    (t, RiskScorer.errorAssessment t e) ∈ RiskScorer.batch_calculate_risk body dict ∧
    (RiskScorer.errorAssessment t e).risk_score = 0 ∧
    (RiskScorer.errorAssessment t e).is_suspicious = false ∧
    (RiskScorer.errorAssessment t e).red_flags = [] ∧
    (RiskScorer.errorAssessment t e).risk_level = "ERROR" ∧
    (RiskScorer.errorAssessment t e).ml_status = none ∧
    (∀ sc : ℤ, RiskScorer._get_risk_level sc ≠ "ERROR") ∧
    (∀ (rs : RiskScorer) (s' : Series) (t' : String),
      ((RiskScorer.calculate_risk_score rs s' t').ml_status).isSome = true) ∧
    (∀ (t' : String) (s' : Series) (a : RiskScorer.RiskAssessment),
      (t', s') ∈ dict → body t' s' = .ok a →
      (t', a) ∈ RiskScorer.batch_calculate_risk body dict) := by
  refine ⟨?_, rfl, rfl, rfl, rfl, rfl, get_risk_level_ne_error, fun rs s' t' => rfl, ?_⟩
  · have hmap := List.mem_map_of_mem
      (fun p : String × Series =>
        (p.1, match body p.1 p.2 with
          | .ok r => r
          | .error e => RiskScorer.errorAssessment p.1 e)) hmem
    unfold RiskScorer.batch_calculate_risk
    simpa [hb] using hmap
  · intro t' s' a hmem' hb'
    have hmap := List.mem_map_of_mem
      (fun p : String × Series =>
        (p.1, match body p.1 p.2 with
          | .ok r => r
          | .error e => RiskScorer.errorAssessment p.1 e)) hmem'
    unfold RiskScorer.batch_calculate_risk
    simpa [hb'] using hmap

/-- Witness for C10: a two-ticker batch whose body raises on BAD. -/
theorem batch_error_isolation_witness :
    ("BAD", RiskScorer.errorAssessment "BAD" "boom") ∈
      RiskScorer.batch_calculate_risk bodyC10 dictC10 ∧
    (RiskScorer.errorAssessment "BAD" "boom").risk_level = "ERROR" ∧
    (RiskScorer.errorAssessment "BAD" "boom").ml_status = none :=
  ⟨(batch_error_isolation bodyC10 dictC10 "BAD" series10 "boom"
      (by simp [dictC10]) (by simp [bodyC10])).1,
   (batch_error_isolation bodyC10 dictC10 "BAD" series10 "boom"
      (by simp [dictC10]) (by simp [bodyC10])).2.2.2.2.1,
   (batch_error_isolation bodyC10 dictC10 "BAD" series10 "boom"
      (by simp [dictC10]) (by simp [bodyC10])).2.2.2.2.2.1⟩
